import Mathlib

/-!
Verification of the AppTrack Phase-3 advisory subsystem
(`backend/app/services/advisory/{population,exposure,feature_state}.py` and
the table models in `backend/app/db/models/p3.py`).

The Python code is shallowly embedded: database rows become Lean structures,
tables become lists, SQL statements become pure list transformations, and
every `try/except` block becomes an explicit fault flag that selects the
exception branch of the translated code.  Machine-independent Python integers
are `Int`/`Nat`; `hashlib.sha256` is embedded as a full executable SHA-256
over byte lists.
-/

namespace AppTrack

/-! ### SHA-256 (embedding of `hashlib.sha256(...)` as used by the code)

Bytes are `Nat`s `< 256`; words are `Nat`s `< 2^32` maintained by reducing
modulo `2^32` after every arithmetic step, exactly as 32-bit words behave. -/

def w32 : Nat := 4294967296

def mask32 : Nat := 4294967295

/-- Right rotation of a 32-bit word. -/
def rotr32 (n x : Nat) : Nat :=
  ((x >>> n) ||| (x <<< (32 - n))) &&& mask32

def bsig0 (x : Nat) : Nat := rotr32 2 x ^^^ rotr32 13 x ^^^ rotr32 22 x

def bsig1 (x : Nat) : Nat := rotr32 6 x ^^^ rotr32 11 x ^^^ rotr32 25 x

def ssig0 (x : Nat) : Nat := rotr32 7 x ^^^ rotr32 18 x ^^^ (x >>> 3)

def ssig1 (x : Nat) : Nat := rotr32 17 x ^^^ rotr32 19 x ^^^ (x >>> 10)

def ch32 (x y z : Nat) : Nat := (x &&& y) ^^^ ((mask32 ^^^ x) &&& z)

def maj32 (x y z : Nat) : Nat := (x &&& y) ^^^ (x &&& z) ^^^ (y &&& z)

def shaK : List Nat :=
  [1116352408, 1899447441, 3049323471, 3921009573, 961987163,
   1508970993, 2453635748, 2870763221, 3624381080, 310598401,
   607225278, 1426881987, 1925078388, 2162078206, 2614888103,
   3248222580, 3835390401, 4022224774, 264347078, 604807628,
   770255983, 1249150122, 1555081692, 1996064986, 2554220882,
   2821834349, 2952996808, 3210313671, 3336571891, 3584528711,
   113926993, 338241895, 666307205, 773529912, 1294757372,
   1396182291, 1695183700, 1986661051, 2177026350, 2456956037,
   2730485921, 2820302411, 3259730800, 3345764771, 3516065817,
   3600352804, 4094571909, 275423344, 430227734, 506948616,
   659060556, 883997877, 958139571, 1322822218, 1537002063,
   1747873779, 1955562222, 2024104815, 2227730452, 2361852424,
   2428436474, 2756734187, 3204031479, 3329325298]

def shaH0 : List Nat :=
  [1779033703, 3144134277, 1013904242, 2773480762,
   1359893119, 2600822924, 528734635, 1541459225]

/-- SHA-256 padding: append `0x80`, zeros to 56 mod 64, then the bit length
as eight big-endian bytes. -/
def shaPad (msg : List Nat) : List Nat :=
  let len := msg.length
  let zeros := (119 - len % 64) % 64
  let bitLen := 8 * len
  msg ++ [0x80] ++ List.replicate zeros 0 ++
    (List.range 8).map (fun i => (bitLen >>> (8 * (7 - i))) % 256)

def shaBlocksN : Nat → List Nat → List (List Nat)
  | 0, _ => []
  | n + 1, bs => bs.take 64 :: shaBlocksN n (bs.drop 64)

/-- Split a padded byte list (whose length is a multiple of 64) into
64-byte blocks. -/
def shaBlocks (bs : List Nat) : List (List Nat) :=
  shaBlocksN (bs.length / 64) bs

/-- The first 16 message-schedule words of a 64-byte block (big-endian). -/
def blockWords (block : List Nat) : List Nat :=
  (List.range 16).map fun i =>
    ((block.getD (4 * i) 0) <<< 24) + ((block.getD (4 * i + 1) 0) <<< 16) +
      ((block.getD (4 * i + 2) 0) <<< 8) + block.getD (4 * i + 3) 0

/-- Extend the 16 schedule words to 64. -/
def extendWords : Nat → List Nat → List Nat
  | 0, ws => ws
  | n + 1, ws =>
      let t := ws.length
      extendWords n (ws ++
        [(ssig1 (ws.getD (t - 2) 0) + ws.getD (t - 7) 0 +
            ssig0 (ws.getD (t - 15) 0) + ws.getD (t - 16) 0) % w32])

/-- One round of the SHA-256 compression function. -/
def shaStep (s : List Nat) (wk : Nat × Nat) : List Nat :=
  match s with
  | [a, b, c, d, e, f, g, h] =>
      let t1 := (h + bsig1 e + ch32 e f g + wk.2 + wk.1) % w32
      let t2 := (bsig0 a + maj32 a b c) % w32
      [(t1 + t2) % w32, a, b, c, (d + t1) % w32, e, f, g]
  | other => other

def compressBlock (h : List Nat) (block : List Nat) : List Nat :=
  let ws := extendWords 48 (blockWords block)
  let fin := (ws.zip shaK).foldl shaStep h
  (h.zip fin).map fun p => (p.1 + p.2) % w32

/-- SHA-256 digest of a byte list, as the eight final 32-bit words. -/
def sha256Words (msg : List Nat) : List Nat :=
  (shaBlocks (shaPad msg)).foldl compressBlock shaH0

/-- The digest as one natural number: exactly Python's
`int(hashlib.sha256(msg).hexdigest(), 16)`. -/
def sha256Nat (msg : List Nat) : Nat :=
  (sha256Words msg).foldl (fun acc word => acc * w32 + word) 0

/-- The lowercase hex digit for `n < 16` (codepoint arithmetic: digits
start at 48, letters at 97 = 87 + 10). -/
def hexChar (n : Nat) : Char :=
  Char.ofNat (if n < 10 then 48 + n else 87 + n)

/-- The digest as a 64-character lowercase hex string: exactly Python's
`hashlib.sha256(msg).hexdigest()`. -/
def sha256hex (msg : List Nat) : String :=
  String.mk ((List.range 64).map fun i =>
    hexChar ((sha256Nat msg >>> (4 * (63 - i))) % 16))

/-! ### UTF-8 encoding and UUID string form

`s.encode("utf-8")` and `str(uuid)` as used by `_cache_key`. -/

def utf8Char (c : Nat) : List Nat :=
  if c < 0x80 then [c]
  else if c < 0x800 then [0xC0 ||| (c >>> 6), 0x80 ||| (c &&& 0x3F)]
  else if c < 0x10000 then
    [0xE0 ||| (c >>> 12), 0x80 ||| ((c >>> 6) &&& 0x3F), 0x80 ||| (c &&& 0x3F)]
  else
    [0xF0 ||| (c >>> 18), 0x80 ||| ((c >>> 12) &&& 0x3F),
     0x80 ||| ((c >>> 6) &&& 0x3F), 0x80 ||| (c &&& 0x3F)]

def strBytes (s : String) : List Nat :=
  (String.toList s).flatMap fun c => utf8Char c.toNat

/-- A UUID value, carried as its 16 big-endian bytes (`uuid.bytes`). -/
abbrev UUIDBytes := List Nat

def byteHex (b : Nat) : List Char := [hexChar (b / 16), hexChar (b % 16)]

/-- Python `str(uuid)`: 32 lowercase hex digits with hyphens in 8-4-4-4-12
grouping. -/
def uuidToStr (u : UUIDBytes) : String :=
  let hs := u.flatMap byteHex
  String.mk (hs.take 8) ++ "-" ++ String.mk ((hs.drop 8).take 4) ++ "-" ++
    String.mk ((hs.drop 12).take 4) ++ "-" ++ String.mk ((hs.drop 16).take 4) ++
    "-" ++ String.mk (hs.drop 20)

/-! ### Data model (embedding of `app/db/models/p3.py`)

Tables are lists of row structures; `gen_random_uuid()` surrogate ids are
drawn from a `nextId` counter; timestamps and dates are `Nat`. -/

/-- A Python/JSONB value, as stored in `signal_payload`. -/
inductive PyVal where
  | pNone
  | pBool (b : Bool)
  | pInt (n : Int)
  | pStr (s : String)
  | pList (xs : List PyVal)
  | pDict (entries : List (String × PyVal))
deriving Repr

/-- Row of `p3_feature_state`.  `rollout_percent` is `Option` because the
code guards `rollout_percent is not None`. -/
structure P3FeatureState where
  enabled : Bool
  rolloutPercent : Option Int
deriving Repr, DecidableEq

/-- Row of `p3_advisory_budget` (unique on `(resume_id, budget_day)`). -/
structure P3AdvisoryBudget where
  resumeId : UUIDBytes
  budgetDay : Nat
  maxAdvisories : Int
  usedAdvisories : Int
deriving Repr, DecidableEq

/-- Row of `p3_advisory_cache` (unique on `cache_key`). -/
structure P3AdvisoryCache where
  cacheKey : String
  signalId : Nat
deriving Repr, DecidableEq

/-- Row of `p3_advisory_signal`. -/
structure P3AdvisorySignal where
  id : Nat
  resumeId : UUIDBytes
  jobPostingId : UUIDBytes
  signalType : String
  signalPayload : PyVal
  confidenceScore : Option Rat
  modelVersion : String
  computedAt : Nat
  expiresAt : Option Nat
  isActive : Bool
deriving Repr

/-- The database state visible to the advisory subsystem.  `featureState` is
the result of the `feature_name == "p3_advisory"` singleton query. -/
structure Store where
  featureState : Option P3FeatureState
  budgets : List P3AdvisoryBudget
  cache : List P3AdvisoryCache
  signals : List P3AdvisorySignal
  nextId : Nat
deriving Repr

/-- The completed `AnalysisResult` handed to the populator (only the fields
the advisory code reads). -/
structure AnalysisResult where
  id : UUIDBytes
  resumeId : UUIDBytes
  jobPostingId : UUIDBytes
deriving Repr, DecidableEq

structure AdvisoryComputationRequest where
  signalType : String
  modelVersion : String
deriving Repr, DecidableEq

structure AdvisoryComputationResult where
  signalType : String
  modelVersion : String
  signalPayload : PyVal
  confidenceScore : Rat
  expiresAt : Option Nat
deriving Repr

/-- The pluggable strategy (`AdvisoryComputer` protocol): pure plan/compute. -/
structure AdvisoryComputer where
  plan : AnalysisResult → List AdvisoryComputationRequest
  compute : AnalysisResult → AdvisoryComputationRequest →
    Option AdvisoryComputationResult

/-- A structured observability event, mirroring `log_phase3_event` calls.
`observability.py` shows logging itself never raises and never alters
control flow, so events are pure outputs. -/
structure Ev where
  name : String
  stage : String
  decision : String
  reason : String
  sigType : Option String := none
  modelVer : Option String := none
deriving Repr, DecidableEq

/-! ### Fault model

Every `try/except` region in the source corresponds to one fault flag; a
`true` flag makes the guarded region raise, selecting the translated
`except` branch.  Per-request flags are indexed by the request's position in
the plan. -/

structure PopFaults where
  featureLookup : Bool
  plan : Bool
  cacheKeyGen : Nat → Bool
  cacheLookup : Nat → Bool
  ensureBudget : Nat → Bool
  consumeBudget : Nat → Bool
  compute : Nat → Bool
  persist : Nat → Bool
  persistInnerLookup : Nat → Bool

def noPopFaults : PopFaults :=
  { featureLookup := false, plan := false, cacheKeyGen := fun _ => false,
    cacheLookup := fun _ => false, ensureBudget := fun _ => false,
    consumeBudget := fun _ => false, compute := fun _ => false,
    persist := fun _ => false, persistInnerLookup := fun _ => false }

structure ExpFaults where
  featureLookup : Bool
  rollout : Bool
  signalQuery : Bool
  render : Bool
deriving Repr, DecidableEq

def noExpFaults : ExpFaults :=
  { featureLookup := false, rollout := false, signalQuery := false,
    render := false }

/-! ### Write path (embedding of `services/advisory/population.py`) -/

namespace Population

/-- `_deterministic_bucket`: `int(sha256(resume_id.bytes).hexdigest(), 16) % 100`. -/
def _deterministic_bucket (resumeId : UUIDBytes) : Nat :=
  sha256Nat resumeId % 100

/-- `_cache_key`: sha256 hex digest of the UTF-8 bytes of
`f"{analysis_result_id}{signal_type}{model_version}"`. -/
def _cache_key (analysisResultId : UUIDBytes)
    (signalType modelVersion : String) : String :=
  sha256hex (strBytes (uuidToStr analysisResultId ++ signalType ++ modelVersion))

/-- `_is_feature_enabled`. -/
def _is_feature_enabled (featureState : Option P3FeatureState) : Bool :=
  match featureState with
  | none => false
  | some fs =>
      fs.enabled &&
        match fs.rolloutPercent with
        | none => false
        | some p => decide (0 < p)

/-- `_is_rollout_eligible`. -/
def _is_rollout_eligible (resumeId : UUIDBytes) (rolloutPercent : Int) : Bool :=
  decide ((_deterministic_bucket resumeId : Int) < rolloutPercent)

/-- The `WHERE resume_id = … AND budget_day = …` predicate. -/
def budgetKeyMatch (rid : UUIDBytes) (day : Nat) (r : P3AdvisoryBudget) : Bool :=
  decide (r.resumeId = rid) && decide (r.budgetDay = day)

/-- `_ensure_budget`: `INSERT … ON CONFLICT (resume_id, budget_day) DO
NOTHING` with `used_advisories=0`; returns `false` only when the statement
raises. -/
def _ensure_budget (db : Store) (resumeId : UUIDBytes) (maxAdvisories : Int)
    (today : Nat) (fault : Bool) : Store × Bool :=
  if fault then (db, false)
  else if db.budgets.any (budgetKeyMatch resumeId today) then (db, true)
  else
    ({ db with
        budgets := db.budgets ++
          [{ resumeId := resumeId, budgetDay := today,
             maxAdvisories := maxAdvisories, usedAdvisories := 0 }] },
      true)

/-- The `WHERE` clause of the conditional `UPDATE` in `_consume_budget`. -/
def consumeMatch (rid : UUIDBytes) (day : Nat) (r : P3AdvisoryBudget) : Bool :=
  budgetKeyMatch rid day r && decide (r.usedAdvisories < r.maxAdvisories)

/-- `_consume_budget`: one conditional `UPDATE` incrementing
`used_advisories` where `used_advisories < max_advisories`; granted iff the
rowcount is exactly 1. -/
def _consume_budget (db : Store) (resumeId : UUIDBytes) (today : Nat)
    (fault : Bool) : Store × Bool × List Ev :=
  if fault then (db, false, [])
  else
    let rowcount := db.budgets.countP (consumeMatch resumeId today)
    let budgets := db.budgets.map fun r =>
      if consumeMatch resumeId today r then
        { r with usedAdvisories := r.usedAdvisories + 1 }
      else r
    let granted := rowcount == 1
    ({ db with budgets := budgets }, granted,
      [{ name := if granted then "phase3.budget_granted"
            else "phase3.budget_exhausted",
         stage := "population.budget_consume",
         decision := if granted then "granted" else "skipped",
         reason := if granted then "budget_consumed" else "budget_exhausted" }])

/-- `_select_cache`: first row with the given key, plus an ok flag that is
`false` only when the query raises. -/
def _select_cache (db : Store) (cacheKey : String) (fault : Bool) :
    (Option P3AdvisoryCache × Bool) × List Ev :=
  if fault then ((none, false), [])
  else
    let cache := db.cache.find? fun r => decide (r.cacheKey = cacheKey)
    ((cache, true),
      [{ name := if cache.isSome then "phase3.cache_hit" else "phase3.cache_miss",
         stage := "population.cache_lookup",
         decision := if cache.isSome then "cache_hit" else "cache_miss",
         reason := if cache.isSome then "cache_reused" else "cache_absent" }])

/-- `_persist_signal`: insert the Signal, flush, then
`INSERT … ON CONFLICT (cache_key) DO NOTHING`; rowcount 0 means a concurrent
writer owns the key, so the just-written Signal is deleted.  On any raise the
handler logs and calls `db.rollback()`, restoring the last committed state
(`snapshot`). -/
def _persist_signal (db : Store) (analysis : AnalysisResult)
    (computeResult : AdvisoryComputationResult) (cacheKey : String)
    (fault innerLookupFault : Bool) (snapshot : Store) (now : Nat) :
    Store × List Ev :=
  if fault then
    (snapshot,
      [{ name := "phase3.contract_violation",
         stage := "population.persist_signal",
         decision := "contract_violation_logged",
         reason := "persistence_failure" }])
  else
    let sig : P3AdvisorySignal :=
      { id := db.nextId, resumeId := analysis.resumeId,
        jobPostingId := analysis.jobPostingId,
        signalType := computeResult.signalType,
        signalPayload := computeResult.signalPayload,
        confidenceScore := some computeResult.confidenceScore,
        modelVersion := computeResult.modelVersion,
        computedAt := now, expiresAt := computeResult.expiresAt,
        isActive := true }
    let db1 :=
      { db with signals := db.signals ++ [sig], nextId := db.nextId + 1 }
    let successEv : Ev :=
      { name := "phase3.compute_success", stage := "population.persist_signal",
        decision := "persisted", reason := "signal_computed",
        sigType := some computeResult.signalType,
        modelVer := some computeResult.modelVersion }
    if db1.cache.any fun r => decide (r.cacheKey = cacheKey) then
      let db2 :=
        { db1 with signals := db1.signals.filter fun s => decide (s.id ≠ sig.id) }
      let lookup := _select_cache db2 cacheKey innerLookupFault
      (db2, lookup.2 ++ [successEv])
    else
      (({ db1 with
          cache := db1.cache ++ [{ cacheKey := cacheKey, signalId := sig.id }] }),
        [successEv])

/-- Shorthand for the loop's `EVENT_CONTRACT_VIOLATION` skip logs. -/
def cvEv (stage reason : String) : Ev :=
  { name := "phase3.contract_violation", stage := stage, decision := "skip",
    reason := reason }

/-- The body of `for request in planned_requests` for one request at plan
index `i`. -/
def processRequest (f : PopFaults) (analysis : AnalysisResult)
    (computer : AdvisoryComputer) (maxAdvisories : Int) (today now : Nat)
    (snapshot : Store) (i : Nat) (db : Store)
    (request : AdvisoryComputationRequest) : Store × List Ev :=
  if f.cacheKeyGen i then (db, [cvEv "population.cache_key" "cache_key_generation_failed"])
  else
    let cacheKey := _cache_key analysis.id request.signalType request.modelVersion
    let sel := _select_cache db cacheKey (f.cacheLookup i)
    if !sel.1.2 then
      (db, sel.2 ++ [cvEv "population.cache_lookup" "cache_lookup_failed"])
    else if sel.1.1.isSome then
      (db, sel.2 ++
        [{ name := "phase3.cache_hit", stage := "population.cache_lookup",
           decision := "reuse", reason := "cache_entry_exists" }])
    else
      let ensured := _ensure_budget db analysis.resumeId maxAdvisories today
        (f.ensureBudget i)
      if !ensured.2 then
        (ensured.1, sel.2 ++ [cvEv "population.budget_init" "budget_initialization_failed"])
      else
        let consumed := _consume_budget ensured.1 analysis.resumeId today
          (f.consumeBudget i)
        if !consumed.2.1 then
          (consumed.1, sel.2 ++ consumed.2.2 ++
            [{ name := "phase3.budget_exhausted",
               stage := "population.budget_consume", decision := "skip",
               reason := "budget_not_granted" }])
        else
          let attemptEv : Ev :=
            { name := "phase3.compute_attempted", stage := "population.compute",
              decision := "attempt", reason := "compute_invoked",
              sigType := some request.signalType,
              modelVer := some request.modelVersion }
          if f.compute i then
            (consumed.1, sel.2 ++ consumed.2.2 ++ [attemptEv] ++
              [{ name := "phase3.compute_error", stage := "population.compute",
                 decision := "skip", reason := "compute_error",
                 sigType := some request.signalType }])
          else
            match computer.compute analysis request with
            | none =>
                (consumed.1, sel.2 ++ consumed.2.2 ++ [attemptEv] ++
                  [cvEv "population.compute" "no_compute_result"])
            | some res =>
                let persisted := _persist_signal consumed.1 analysis res cacheKey
                  (f.persist i) (f.persistInnerLookup i) snapshot now
                (persisted.1, sel.2 ++ consumed.2.2 ++ [attemptEv] ++ persisted.2)

/-- The request loop, threading the store left to right. -/
def popLoop (f : PopFaults) (analysis : AnalysisResult)
    (computer : AdvisoryComputer) (maxAdvisories : Int) (today now : Nat)
    (snapshot : Store) :
    Nat → Store → List AdvisoryComputationRequest → Store × List Ev
  | _, db, [] => (db, [])
  | i, db, request :: rest =>
      let step := processRequest f analysis computer maxAdvisories today now
        snapshot i db request
      let next := popLoop f analysis computer maxAdvisories today now snapshot
        (i + 1) step.1 rest
      (next.1, step.2 ++ next.2)

def DEFAULT_MAX_ADVISORIES : Int := 1

/-- `populate_advisories_ws2`: gate → rollout → plan → per-request loop.
`snapshot`, the last committed state, is the store at entry (the triggering
analysis was durably committed by the caller). -/
def populate_advisories_ws2 (f : PopFaults) (db : Store)
    (analysis : AnalysisResult) (computer : AdvisoryComputer)
    (maxAdvisories : Int) (today now : Nat) : Store × List Ev :=
  if f.featureLookup then
    (db,
      [{ name := "phase3.contract_violation", stage := "population.feature_state",
         decision := "skip", reason := "feature_state_lookup_failed" }])
  else
    let featureState := db.featureState
    if !(_is_feature_enabled featureState) then
      (db,
        [{ name := "phase3.disabled_noop", stage := "population.kill_switch",
           decision := "skip", reason := "feature_disabled" }])
    else
      let pct := (featureState.bind fun fs => fs.rolloutPercent).getD 0
      if !(_is_rollout_eligible analysis.resumeId pct) then
        (db,
          [{ name := "phase3.rollout_ineligible", stage := "population.rollout",
             decision := "skip", reason := "deterministic_bucket_ineligible" }])
      else if f.plan then
        (db, [cvEv "population.plan" "computation_planning_failed"])
      else
        let planned := computer.plan analysis
        if planned.isEmpty then
          (db, [cvEv "population.plan" "no_planned_requests"])
        else
          popLoop f analysis computer maxAdvisories today now db 0 db planned

/-- `AdvisoryPopulator.populate_from_analysis`: delegates inside a
catch-all `try/except`.  Every raising site inside
`populate_advisories_ws2` is already caught there, so the embedded body is
the delegate itself; the function is total by construction. -/
def populate_from_analysis (f : PopFaults) (db : Store)
    (analysis : AnalysisResult) (computer : AdvisoryComputer)
    (maxAdvisories : Int) (today now : Nat) : Store × List Ev :=
  populate_advisories_ws2 f db analysis computer maxAdvisories today now

end Population

/-! ### Read path (embedding of `services/advisory/exposure.py`) -/

namespace Exposure

/-- `_deterministic_bucket` (exposure's own copy, same text as population's). -/
def _deterministic_bucket (resumeId : UUIDBytes) : Nat :=
  sha256Nat resumeId % 100

/-- `_is_feature_enabled` (exposure's copy). -/
def _is_feature_enabled (featureState : Option P3FeatureState) : Bool :=
  match featureState with
  | none => false
  | some fs =>
      fs.enabled &&
        match fs.rolloutPercent with
        | none => false
        | some p => decide (0 < p)

/-- `_is_rollout_eligible` (exposure's copy). -/
def _is_rollout_eligible (resumeId : UUIDBytes) (rolloutPercent : Int) : Bool :=
  decide ((_deterministic_bucket resumeId : Int) < rolloutPercent)

/-- `_safe_details`: the payload itself when it is a dict, else `None`. -/
def _safe_details (payload : PyVal) : Option (List (String × PyVal)) :=
  match payload with
  | PyVal.pDict entries => some entries
  | _ => none

/-- `payload.get("summary")`. -/
def dictGet (entries : List (String × PyVal)) (key : String) : Option PyVal :=
  (entries.find? fun e => decide (e.1 = key)).map fun e => e.2

/-- `_safe_summary`: `None` for a falsy payload (`None` or the empty dict),
else the `"summary"` value when it is a string. -/
def _safe_summary (payload : Option (List (String × PyVal))) : Option String :=
  match payload with
  | none => none
  | some entries =>
      if entries.isEmpty then none
      else
        match dictGet entries "summary" with
        | some (PyVal.pStr s) => some s
        | _ => none

/-- `_load_feature_state`: the singleton row, or `None` when the query
raises (fail-closed). -/
def _load_feature_state (db : Store) (fault : Bool) : Option P3FeatureState :=
  if fault then none else db.featureState

/-- One element of the `signals` list of the envelope. -/
structure RenderedSignal where
  type : String
  confidence : Option Rat
  summary : Option String
  details : Option (List (String × PyVal))
  modelVersion : String
  computedAt : Nat
deriving Repr

/-- The per-signal rendering performed by the envelope loop.
`float(confidence_score)` is value-preserving on the stored numeric, so the
conversion is the identity on `Rat`. -/
def renderSignal (s : P3AdvisorySignal) : RenderedSignal :=
  let details := _safe_details s.signalPayload
  { type := s.signalType, confidence := s.confidenceScore,
    summary := _safe_summary details, details := details,
    modelVersion := s.modelVersion, computedAt := s.computedAt }

structure Envelope where
  resumeId : UUIDBytes
  jobPostingId : UUIDBytes
  advisoryOnly : Bool
  generatedAt : Nat
  signals : List RenderedSignal
deriving Repr

/-- The `WHERE` clause of the signal query: owner and subject match, active,
and not expired (`expires_at IS NULL OR expires_at > now()`). -/
def signalFilter (resumeId jobPostingId : UUIDBytes) (now : Nat)
    (s : P3AdvisorySignal) : Bool :=
  decide (s.resumeId = resumeId) && decide (s.jobPostingId = jobPostingId) &&
    s.isActive &&
    match s.expiresAt with
    | none => true
    | some e => decide (now < e)

/-- The signal query: filter plus `ORDER BY computed_at DESC`. -/
def queryActiveSignals (db : Store) (resumeId jobPostingId : UUIDBytes)
    (now : Nat) : List P3AdvisorySignal :=
  List.insertionSort (fun a b => b.computedAt ≤ a.computedAt)
    (db.signals.filter (signalFilter resumeId jobPostingId now))

/-- `get_advisory_envelope`.  The gate, rollout and query regions sit inside
`try/except` handlers that return `None`; the rendering loop and envelope
construction do not, so a failure raised there propagates (`Except.error`). -/
def get_advisory_envelope (f : ExpFaults) (db : Store)
    (resumeId jobPostingId : UUIDBytes) (now : Nat) :
    Except Unit (Option Envelope) :=
  let featureState := _load_feature_state db f.featureLookup
  if !(_is_feature_enabled featureState) then Except.ok none
  else if f.rollout then Except.ok none
  else
    let pct := (featureState.bind fun fs => fs.rolloutPercent).getD 0
    if !(_is_rollout_eligible resumeId pct) then Except.ok none
    else if f.signalQuery then Except.ok none
    else
      match queryActiveSignals db resumeId jobPostingId now with
      | [] => Except.ok none
      | s0 :: rest =>
          if f.render then Except.error ()
          else
            Except.ok (some
              { resumeId := resumeId, jobPostingId := jobPostingId,
                advisoryOnly := true, generatedAt := s0.computedAt,
                signals := (s0 :: rest).map renderSignal })

end Exposure

/-! ### Shared helpers (embedding of `services/advisory/feature_state.py`) -/

namespace FeatureStateM

/-- `_deterministic_bucket` (feature_state's copy). -/
def _deterministic_bucket (resumeId : UUIDBytes) : Nat :=
  sha256Nat resumeId % 100

/-- `is_kill_switch_engaged`. -/
def is_kill_switch_engaged (featureState : Option P3FeatureState) : Bool :=
  !(match featureState with
    | none => false
    | some fs => fs.enabled)

/-- `is_rollout_configured`. -/
def is_rollout_configured (featureState : Option P3FeatureState) : Bool :=
  match featureState with
  | none => false
  | some fs =>
      fs.enabled &&
        match fs.rolloutPercent with
        | none => false
        | some p => decide (0 < p)

/-- `rollout_percent`. -/
def rollout_percent (featureState : Option P3FeatureState) : Int :=
  match featureState with
  | none => 0
  | some fs =>
      match fs.rolloutPercent with
      | none => 0
      | some p => p

/-- `is_rollout_eligible`. -/
def is_rollout_eligible (resumeId : UUIDBytes)
    (featureState : Option P3FeatureState) : Bool :=
  if !(is_rollout_configured featureState) then false
  else
    decide ((_deterministic_bucket resumeId : Int) <
      (featureState.bind fun fs => fs.rolloutPercent).getD 0)

end FeatureStateM

/-! ### Auxiliary definitions used by the theorems -/

/-- One BudgetLedger storage operation, as issued by the populator. -/
inductive BudgetOp where
  | ensure (rid : UUIDBytes) (day : Nat) (maxA : Int)
  | consume (rid : UUIDBytes) (day : Nat)

def applyBudgetOp (db : Store) : BudgetOp → Store
  | BudgetOp.ensure rid day maxA => (Population._ensure_budget db rid maxA day false).1
  | BudgetOp.consume rid day => (Population._consume_budget db rid day false).1

def applyBudgetOps (db : Store) (ops : List BudgetOp) : Store :=
  ops.foldl applyBudgetOp db

/-- The budget invariant: no row is over-spent. -/
def BudgetInv (db : Store) : Prop :=
  ∀ r ∈ db.budgets, r.usedAdvisories ≤ r.maxAdvisories

/-- `ensure` is only ever issued with a non-negative quota. -/
def opMaxNonneg : BudgetOp → Prop
  | BudgetOp.ensure _ _ maxA => 0 ≤ maxA
  | BudgetOp.consume _ _ => True

/-- `N` successive `consume()` calls against one owner/day; returns the
final store and how many were granted. -/
def consumeCalls : Nat → Store → UUIDBytes → Nat → Store × Nat
  | 0, db, _, _ => (db, 0)
  | n + 1, db, rid, day =>
      let c := Population._consume_budget db rid day false
      let rest := consumeCalls n c.1 rid day
      (rest.1, (if c.2.1 then 1 else 0) + rest.2)

/-! Concrete values used by witnesses and counterexamples. -/

def zeroUUID : UUIDBytes := List.replicate 16 0

def oneUUID : UUIDBytes := List.replicate 15 0 ++ [1]

/-- A resume id whose deterministic bucket is 30. -/
def bucket30UUID : UUIDBytes := List.replicate 15 0 ++ [72]

/-- Two distinct analyses sharing owner (`resume_id`) and subject
(`job_posting_id`). -/
def exAnalysisA : AnalysisResult :=
  { id := zeroUUID, resumeId := bucket30UUID, jobPostingId := oneUUID }

def exAnalysisB : AnalysisResult :=
  { id := oneUUID, resumeId := bucket30UUID, jobPostingId := oneUUID }

/-- A trivial no-op strategy (`NoOpAdvisoryComputer`). -/
def noopComputer : AdvisoryComputer :=
  { plan := fun _ => [], compute := fun _ _ => none }

def emptyStore : Store :=
  { featureState := none, budgets := [], cache := [], signals := [], nextId := 0 }

/-- The disabled-gate condition of the spec: feature row absent, disabled,
or non-positive rollout percentage. -/
def GateOff (featureState : Option P3FeatureState) : Prop :=
  featureState = none ∨
    (∃ fs, featureState = some fs ∧ fs.enabled = false) ∨
    (∃ fs p, featureState = some fs ∧ fs.rolloutPercent = some p ∧ p ≤ 0)

/-- A stored signal with a malformed (non-dict) payload and a null
confidence. -/
def exMalformedSignal : P3AdvisorySignal :=
  { id := 3, resumeId := bucket30UUID, jobPostingId := oneUUID,
    signalType := "fit_stability", signalPayload := PyVal.pStr "oops",
    confidenceScore := none, modelVersion := "ws3_advisory_v1",
    computedAt := 4, expiresAt := none, isActive := true }

/-- An eligible, active, unexpired stored signal. -/
def exActiveSignal : P3AdvisorySignal :=
  { id := 7, resumeId := bucket30UUID, jobPostingId := oneUUID,
    signalType := "fit_stability",
    signalPayload := PyVal.pDict [("summary", PyVal.pStr "ok")],
    confidenceScore := some 1, modelVersion := "ws3_advisory_v1",
    computedAt := 5, expiresAt := none, isActive := true }

/-- A store with the feature fully rolled out and one eligible signal. -/
def exSignalStore : Store :=
  { featureState := some { enabled := true, rolloutPercent := some 100 },
    budgets := [], cache := [], signals := [exActiveSignal], nextId := 8 }

def exEnvelope : Exposure.Envelope :=
  { resumeId := bucket30UUID, jobPostingId := oneUUID, advisoryOnly := true,
    generatedAt := 5, signals := [Exposure.renderSignal exActiveSignal] }

/-! Concrete inputs for the two-requests-one-budget scenario. -/

def c6Analysis : AnalysisResult :=
  { id := zeroUUID, resumeId := bucket30UUID, jobPostingId := oneUUID }

def c6Computer : AdvisoryComputer :=
  { plan := fun _ =>
      [{ signalType := "fit_stability", modelVersion := "ws3_advisory_v1" },
       { signalType := "opportunity_risk", modelVersion := "ws3_advisory_v1" }],
    compute := fun _ req =>
      some { signalType := req.signalType, modelVersion := req.modelVersion,
             signalPayload := PyVal.pDict [("summary", PyVal.pStr "s")],
             confidenceScore := 1, expiresAt := none } }

def c6Store : Store :=
  { featureState := some { enabled := true, rolloutPercent := some 50 },
    budgets := [], cache := [], signals := [], nextId := 0 }

/-- Whether the cache already holds a key (the conflict test of
`_persist_signal`'s `ON CONFLICT DO NOTHING` insert). -/
def cacheHasKey (db : Store) (k : String) : Bool :=
  db.cache.any fun r => decide (r.cacheKey = k)

/-- Two budget rows with distinct `(resume_id, budget_day)` keys. -/
def BudKeyDistinct (a b : P3AdvisoryBudget) : Prop :=
  ¬(a.resumeId = b.resumeId ∧ a.budgetDay = b.budgetDay)

/-- The database unique constraint on `(resume_id, budget_day)`. -/
def BudgetUnique (db : Store) : Prop :=
  db.budgets.Pairwise BudKeyDistinct

/-- Stored signal ids are below the id counter (`gen_random_uuid` never
collides with an existing row). -/
def SignalIdsFresh (db : Store) : Prop :=
  ∀ s ∈ db.signals, s.id < db.nextId

/-- The owner's budget row for the day exists and is spent out. -/
def BudgetExhaustedFor (db : Store) (rid : UUIDBytes) (day : Nat) : Prop :=
  ∃ r ∈ db.budgets, Population.budgetKeyMatch rid day r = true ∧
    r.maxAdvisories ≤ r.usedAdvisories

/-- The signal row `_persist_signal` writes before attempting to claim the
cache key. -/
def newSignal (db : Store) (analysis : AnalysisResult)
    (res : AdvisoryComputationResult) (now : Nat) : P3AdvisorySignal :=
  { id := db.nextId, resumeId := analysis.resumeId,
    jobPostingId := analysis.jobPostingId, signalType := res.signalType,
    signalPayload := res.signalPayload,
    confidenceScore := some res.confidenceScore,
    modelVersion := res.modelVersion, computedAt := now,
    expiresAt := res.expiresAt, isActive := true }

/-- A planned request that a later populate pass can no longer turn into a
new Signal: its cache key is claimed, or the day's budget is exhausted, or
its computation is deterministically empty. -/
def ReqSettled (today : Nat) (analysis : AnalysisResult)
    (computer : AdvisoryComputer) (db : Store)
    (req : AdvisoryComputationRequest) : Prop :=
  cacheHasKey db
      (Population._cache_key analysis.id req.signalType req.modelVersion) =
    true ∨
  BudgetExhaustedFor db analysis.resumeId today ∨
  computer.compute analysis req = none


/-- Signals carrying distinct `(signal_type, model_version)` pairs. -/
def TypeDistinct (a b : P3AdvisorySignal) : Prop :=
  ¬(a.signalType = b.signalType ∧ a.modelVersion = b.modelVersion)

/-- The `AdvisoryComputationResult` dataclass inherits `signal_type` and
`model_version` from the request; a conforming strategy echoes them. -/
def ComputerEchoes (analysis : AnalysisResult)
    (computer : AdvisoryComputer) : Prop :=
  ∀ (req : AdvisoryComputationRequest) (res : AdvisoryComputationResult),
    computer.compute analysis req = some res →
    res.signalType = req.signalType ∧ res.modelVersion = req.modelVersion

/-- The scenario run: rollout 50 with bucket 30, budget max 1, two planned
requests that both compute successfully. -/
def c6Run : Store × List Ev :=
  Population.populate_advisories_ws2 noPopFaults c6Store c6Analysis c6Computer
    1 0 0


/-- A concrete computation result for the persist witness. -/
def exRes : AdvisoryComputationResult :=
  { signalType := "fit_stability", modelVersion := "ws3_advisory_v1",
    signalPayload := PyVal.pStr "x", confidenceScore := 1,
    expiresAt := none }

/-! ## Theorems -/

set_option maxRecDepth 100000

/-! SHA-256 sanity checks against the FIPS 180-4 test vectors. -/

theorem sha256_vector_empty :
    sha256hex [] =
      "e3b0c44298fc1c149afbf4c8996fb92427ae41e4649b934ca495991b7852b855" := by
  decide

theorem sha256_vector_abc :
    sha256hex (strBytes "abc") =
      "ba7816bf8f01cfea414140de5dae2223b00361a396177a9cb410ff61f20015ad" := by
  decide

/-! Budget ledger lemmas (C1). -/

theorem consumeMatch_eval (rid : UUIDBytes) (day : Nat) (K u : Int) :
    Population.consumeMatch rid day
      { resumeId := rid, budgetDay := day, maxAdvisories := K,
        usedAdvisories := u } = decide (u < K) := by
  simp [Population.consumeMatch, Population.budgetKeyMatch]

theorem ensure_preserves_inv (db : Store) (rid : UUIDBytes) (maxA : Int)
    (day : Nat) (hm : 0 ≤ maxA) (h : BudgetInv db) :
    BudgetInv (Population._ensure_budget db rid maxA day false).1 := by
  unfold Population._ensure_budget
  rw [if_neg Bool.false_ne_true]
  split
  · exact h
  · intro r hr
    rcases List.mem_append.mp hr with hOld | hNew
    · exact h r hOld
    · rcases List.mem_singleton.mp hNew with rfl
      simpa using hm

theorem consume_preserves_inv (db : Store) (rid : UUIDBytes) (day : Nat)
    (h : BudgetInv db) :
    BudgetInv (Population._consume_budget db rid day false).1 := by
  unfold Population._consume_budget
  rw [if_neg Bool.false_ne_true]
  intro r hr
  rcases List.mem_map.mp hr with ⟨r0, hr0, hEq⟩
  by_cases hm : Population.consumeMatch rid day r0 = true
  · rw [if_pos hm] at hEq
    subst hEq
    have hlt : r0.usedAdvisories < r0.maxAdvisories := by
      have := hm
      simp [Population.consumeMatch, Bool.and_eq_true] at this
      exact this.2
    simpa using hlt
  · rw [if_neg hm] at hEq
    subst hEq
    exact h r0 hr0

theorem budgetInv_applyOps (ops : List BudgetOp) :
    ∀ db : Store, BudgetInv db → (∀ op ∈ ops, opMaxNonneg op) →
      BudgetInv (applyBudgetOps db ops) := by
  induction ops with
  | nil => intro db h _; simpa [applyBudgetOps] using h
  | cons op rest ih =>
      intro db h hOps
      have hstep : BudgetInv (applyBudgetOp db op) := by
        cases op with
        | ensure rid day maxA =>
            exact ensure_preserves_inv db rid maxA day
              (hOps _ (List.mem_cons_self _ _)) h
        | consume rid day => exact consume_preserves_inv db rid day h
      have : applyBudgetOps db (op :: rest) =
          applyBudgetOps (applyBudgetOp db op) rest := by
        simp [applyBudgetOps]
      rw [this]
      exact ih _ hstep fun o ho => hOps o (List.mem_cons_of_mem _ ho)

theorem consumeCalls_single (N : Nat) :
    ∀ (K u : Nat) (db : Store) (rid : UUIDBytes) (day : Nat),
      db.budgets =
        [{ resumeId := rid, budgetDay := day, maxAdvisories := (K : Int),
           usedAdvisories := (u : Int) }] →
      (consumeCalls N db rid day).2 = min N (K - u) ∧
      (consumeCalls N db rid day).1.budgets =
        [{ resumeId := rid, budgetDay := day, maxAdvisories := (K : Int),
           usedAdvisories := ((u + min N (K - u) : Nat) : Int) }] := by
  induction N with
  | zero => intro K u db rid day hdb; simp [consumeCalls, hdb]
  | succ n ih =>
      intro K u db rid day hdb
      by_cases hlt : u < K
      · have hm : Population.consumeMatch rid day
            { resumeId := rid, budgetDay := day, maxAdvisories := (K : Int),
              usedAdvisories := (u : Int) } = true := by
          rw [consumeMatch_eval]
          simpa using hlt
        have hstep : (Population._consume_budget db rid day false).1.budgets =
            [{ resumeId := rid, budgetDay := day, maxAdvisories := (K : Int),
               usedAdvisories := ((u + 1 : Nat) : Int) }] ∧
            (Population._consume_budget db rid day false).2.1 = true := by
          unfold Population._consume_budget
          simp [hdb, hm]
        obtain ⟨hdb', hg⟩ := hstep
        obtain ⟨ihg, ihb⟩ := ih K (u + 1) _ rid day hdb'
        constructor
        · show (if (Population._consume_budget db rid day false).2.1 then 1
              else 0) + (consumeCalls n (Population._consume_budget db rid
              day false).1 rid day).2 = min (n + 1) (K - u)
          rw [hg, ihg]
          simp only [if_pos]
          omega
        · show (consumeCalls n (Population._consume_budget db rid day
              false).1 rid day).1.budgets = _
          rw [ihb]
          congr 2
          omega
      · have hm : Population.consumeMatch rid day
            { resumeId := rid, budgetDay := day, maxAdvisories := (K : Int),
              usedAdvisories := (u : Int) } = false := by
          rw [consumeMatch_eval]
          simpa using hlt
        have hstep : (Population._consume_budget db rid day false).1.budgets =
            db.budgets ∧
            (Population._consume_budget db rid day false).2.1 = false := by
          unfold Population._consume_budget
          simp [hdb, hm]
        obtain ⟨hdb', hg⟩ := hstep
        obtain ⟨ihg, ihb⟩ := ih K u _ rid day (hdb'.trans hdb)
        have hz : K - u = 0 := by omega
        constructor
        · show (if (Population._consume_budget db rid day false).2.1 then 1
              else 0) + (consumeCalls n (Population._consume_budget db rid
              day false).1 rid day).2 = min (n + 1) (K - u)
          rw [hg, ihg, hz]
          simp
        · show (consumeCalls n (Population._consume_budget db rid day
              false).1 rid day).1.budgets = _
          rw [ihb, hz]
          simp

/-- C1: each `consume()` increments `used_advisories` by exactly one and
reports granted when `used_advisories < max_advisories`, and leaves the row
unchanged reporting denied otherwise; `used_advisories ≤ max_advisories` is
preserved by any sequence of ensure/consume operations (quotas being
non-negative); and `N` consume calls against a fresh row of capacity `K < N`
grant exactly `K`, deny `N - K`, and leave `used_advisories` at `K`. -/
theorem budget_consume_correct :
    (∀ (db : Store) (rid : UUIDBytes) (day : Nat) (r : P3AdvisoryBudget),
      db.budgets = [r] → r.resumeId = rid → r.budgetDay = day →
      ((r.usedAdvisories < r.maxAdvisories →
          (Population._consume_budget db rid day false).1.budgets =
            [{ r with usedAdvisories := r.usedAdvisories + 1 }] ∧
          (Population._consume_budget db rid day false).2.1 = true) ∧
       (r.maxAdvisories ≤ r.usedAdvisories →
          (Population._consume_budget db rid day false).1.budgets = [r] ∧
          (Population._consume_budget db rid day false).2.1 = false))) ∧
    (∀ (ops : List BudgetOp) (db : Store), BudgetInv db →
      (∀ op ∈ ops, opMaxNonneg op) → BudgetInv (applyBudgetOps db ops)) ∧
    (∀ (N K : Nat) (db : Store) (rid : UUIDBytes) (day : Nat),
      K < N →
      db.budgets =
        [{ resumeId := rid, budgetDay := day, maxAdvisories := (K : Int),
           usedAdvisories := (0 : Int) }] →
      (consumeCalls N db rid day).2 = K ∧
      N - (consumeCalls N db rid day).2 = N - K ∧
      (consumeCalls N db rid day).1.budgets =
        [{ resumeId := rid, budgetDay := day, maxAdvisories := (K : Int),
           usedAdvisories := (K : Int) }]) := by
  refine ⟨?single, budgetInv_applyOps, ?count⟩
  · intro db rid day r hdb hrid hday
    have hmatch : Population.consumeMatch rid day r =
        decide (r.usedAdvisories < r.maxAdvisories) := by
      rcases r with ⟨rr, rd, rm, ru⟩
      cases hrid
      cases hday
      exact consumeMatch_eval _ _ _ _
    constructor
    · intro hlt
      have hm : Population.consumeMatch rid day r = true := by
        rw [hmatch]; simpa using hlt
      unfold Population._consume_budget
      simp [hdb, hm]
    · intro hge
      have hm : Population.consumeMatch rid day r = false := by
        rw [hmatch]; simpa using not_lt.mpr hge
      unfold Population._consume_budget
      simp [hdb, hm]
  · intro N K db rid day hKN hdb
    have h0 : ((0 : Nat) : Int) = (0 : Int) := rfl
    have := consumeCalls_single N K 0 db rid day (by simpa using hdb)
    obtain ⟨hg, hb⟩ := this
    have hmin : min N (K - 0) = K := by omega
    refine ⟨by rw [hg, hmin], by rw [hg, hmin], ?_⟩
    rw [hb]
    congr 2
    omega

/-- C8: the rollout bucket is the SHA-256 digest of the owner id's bytes
reduced modulo 100 (hence deterministic: a pure function of those bytes),
always lies in `[0, 100)`, and eligibility `bucket < rollout_percent` is
monotone non-decreasing in the rollout percentage. -/
theorem bucket_range_monotone :
    (∀ b : UUIDBytes, Population._deterministic_bucket b = sha256Nat b % 100) ∧
    (∀ b : UUIDBytes, Population._deterministic_bucket b < 100) ∧
    (∀ (b : UUIDBytes) (p1 p2 : Int), p1 ≤ p2 →
      Population._is_rollout_eligible b p1 = true →
      Population._is_rollout_eligible b p2 = true) := by
  refine ⟨fun b => rfl, fun b => Nat.mod_lt _ (by norm_num), ?_⟩
  intro b p1 p2 hle h1
  unfold Population._is_rollout_eligible at h1 ⊢
  exact decide_eq_true (lt_of_lt_of_le (of_decide_eq_true h1) hle)

/-- Witness for C8: a concrete owner with bucket 30 is eligible at 31 and,
by monotonicity, at 50. -/
theorem bucket_range_monotone_witness :
    (31 : Int) ≤ 50 ∧
    Population._is_rollout_eligible bucket30UUID 31 = true ∧
    Population._is_rollout_eligible bucket30UUID 50 = true := by
  have h31 : Population._is_rollout_eligible bucket30UUID 31 = true := by decide
  exact ⟨by decide, h31,
    bucket_range_monotone.2.2 bucket30UUID 31 50 (by decide) h31⟩

/-- C9: the write path's gate/bucket/rollout helpers agree pointwise with
the read path's helpers of the same names, and with
`feature_state.is_rollout_eligible`; the populatable owners are exactly the
readable owners under a fixed configuration. -/
theorem gate_rollout_agree :
    (∀ b : UUIDBytes,
      Population._deterministic_bucket b = Exposure._deterministic_bucket b) ∧
    (∀ b : UUIDBytes,
      Population._deterministic_bucket b = FeatureStateM._deterministic_bucket b) ∧
    (∀ fs : Option P3FeatureState,
      Population._is_feature_enabled fs = Exposure._is_feature_enabled fs) ∧
    (∀ (b : UUIDBytes) (p : Int),
      Population._is_rollout_eligible b p = Exposure._is_rollout_eligible b p) ∧
    (∀ (b : UUIDBytes) (fs : Option P3FeatureState),
      FeatureStateM.is_rollout_eligible b fs =
        (Population._is_feature_enabled fs &&
          Population._is_rollout_eligible b (FeatureStateM.rollout_percent fs))) := by
  refine ⟨fun b => rfl, fun b => rfl, fun fs => rfl, fun b p => rfl, ?_⟩
  intro b fs
  rcases fs with _ | ⟨en, rp⟩
  · rfl
  · rcases rp with _ | p
    · cases en <;> rfl
    · cases en
      · rfl
      · by_cases h0 : (0 : Int) < p
        · simp [FeatureStateM.is_rollout_eligible,
            FeatureStateM.is_rollout_configured, FeatureStateM.rollout_percent,
            Population._is_feature_enabled, Population._is_rollout_eligible,
            Population._deterministic_bucket, FeatureStateM._deterministic_bucket,
            h0]
        · simp [FeatureStateM.is_rollout_eligible,
            FeatureStateM.is_rollout_configured, FeatureStateM.rollout_percent,
            Population._is_feature_enabled, Population._is_rollout_eligible,
            h0]

/-- C3 counterexample: the cache key hashes the analysis result id, not
owner and subject — two distinct analyses sharing owner and subject get
different keys for the same signal type and model version. -/
theorem cache_key_not_owner_subject :
    exAnalysisA.resumeId = exAnalysisB.resumeId ∧
    exAnalysisA.jobPostingId = exAnalysisB.jobPostingId ∧
    exAnalysisA.id ≠ exAnalysisB.id ∧
    Population._cache_key exAnalysisA.id "fit_stability" "ws3_advisory_v1" ≠
      Population._cache_key exAnalysisB.id "fit_stability" "ws3_advisory_v1" := by
  exact ⟨rfl, rfl, by decide, by decide⟩

/-- C3 amended: the cache key is the deterministic content hash of
`(analysis_result_id, signal_type, model_version)` — the digest of their
concatenated UTF-8 text — so computations are deduplicated per analysis
tuple, not per owner/subject tuple (concretely, equal owner and subject do
not force equal keys). -/
theorem cache_key_analysis_scoped :
    (∀ (analysisId : UUIDBytes) (st mv : String),
      Population._cache_key analysisId st mv =
        sha256hex (strBytes (uuidToStr analysisId ++ st ++ mv))) ∧
    Population._cache_key exAnalysisB.id "fit_stability" "ws3_advisory_v1" ≠
      Population._cache_key exAnalysisA.id "fit_stability" "ws3_advisory_v1" := by
  exact ⟨fun analysisId st mv => rfl, by decide⟩

/-- C10: envelope rendering is total on malformed stored payloads — a
non-dict payload renders with `details = None` and `summary = None`, a dict
without a string `"summary"` renders `summary = None`, and a null
confidence renders as `None`. -/
theorem render_total_on_malformed :
    (∀ s : P3AdvisorySignal, (∀ d, s.signalPayload ≠ PyVal.pDict d) →
      (Exposure.renderSignal s).details = none ∧
      (Exposure.renderSignal s).summary = none) ∧
    (∀ (s : P3AdvisorySignal) (d : List (String × PyVal)),
      s.signalPayload = PyVal.pDict d →
      (∀ str, Exposure.dictGet d "summary" ≠ some (PyVal.pStr str)) →
      (Exposure.renderSignal s).summary = none) ∧
    (∀ s : P3AdvisorySignal, s.confidenceScore = none →
      (Exposure.renderSignal s).confidence = none) := by
  refine ⟨?notdict, ?nostr, ?conf⟩
  · intro s h
    have hd : Exposure._safe_details s.signalPayload = none := by
      cases hp : s.signalPayload
      case pDict d => exact absurd hp (h d)
      all_goals rfl
    simp [Exposure.renderSignal, hd, Exposure._safe_summary]
  · intro s d hp h
    have hd : Exposure._safe_details s.signalPayload = some d := by
      rw [hp]; rfl
    simp only [Exposure.renderSignal, hd]
    unfold Exposure._safe_summary
    cases hempty : d.isEmpty
    · cases hg : Exposure.dictGet d "summary"
      case some v =>
        cases v
        case pStr str => exact absurd hg (h str)
        all_goals simp [hempty, hg]
      case none => simp [hempty, hg]
    · simp [hempty]
  · intro s h
    simp [Exposure.renderSignal, h]

/-- Witness for C10 on a concrete stored row with a string payload and a
null confidence. -/
theorem render_total_on_malformed_witness :
    (Exposure.renderSignal exMalformedSignal).details = none ∧
    (Exposure.renderSignal exMalformedSignal).summary = none ∧
    (Exposure.renderSignal exMalformedSignal).confidence = none := by
  have hND : ∀ d, exMalformedSignal.signalPayload ≠ PyVal.pDict d := by
    intro d h
    rw [show exMalformedSignal.signalPayload = PyVal.pStr "oops" from rfl] at h
    exact PyVal.noConfusion h
  obtain ⟨h1, h2⟩ := render_total_on_malformed.1 exMalformedSignal hND
  exact ⟨h1, h2, render_total_on_malformed.2.2 exMalformedSignal rfl⟩

/-! Gate lemmas (C4). -/

theorem pop_gate_off {fsOpt : Option P3FeatureState} (h : GateOff fsOpt) :
    Population._is_feature_enabled fsOpt = false := by
  rcases h with h | ⟨fs, hfs, he⟩ | ⟨fs, p, hfs, hp, hle⟩
  · rw [h]; rfl
  · rw [hfs]; simp [Population._is_feature_enabled, he]
  · rw [hfs]
    simp [Population._is_feature_enabled, hp, not_lt.mpr hle]

theorem exp_feature_enabled_eq (fsOpt : Option P3FeatureState) :
    Exposure._is_feature_enabled fsOpt = Population._is_feature_enabled fsOpt :=
  rfl

/-- C4: with the feature row absent, disabled, or at non-positive rollout,
`populate` leaves the store untouched (zero writes to Budget, CacheEntry
and Signal state) and `getEnvelope` returns absent, under every fault
assignment and every pre-existing store — neither raises. -/
theorem disabled_no_writes_no_envelope :
    ∀ (pf : PopFaults) (ef : ExpFaults) (db : Store)
      (analysis : AnalysisResult) (computer : AdvisoryComputer)
      (maxAdvisories : Int) (today now : Nat) (rid jid : UUIDBytes)
      (qnow : Nat),
      GateOff db.featureState →
      (Population.populate_advisories_ws2 pf db analysis computer
        maxAdvisories today now).1 = db ∧
      Exposure.get_advisory_envelope ef db rid jid qnow = Except.ok none := by
  intro pf ef db analysis computer maxA today now rid jid qnow hOff
  constructor
  · unfold Population.populate_advisories_ws2
    cases hf : pf.featureLookup
    · simp [pop_gate_off hOff]
    · simp
  · unfold Exposure.get_advisory_envelope
    cases hf : ef.featureLookup
    · simp [Exposure._load_feature_state, exp_feature_enabled_eq,
        pop_gate_off hOff]
    · simp [Exposure._load_feature_state, Exposure._is_feature_enabled]

/-- Witness for C4 at the empty store with its feature row absent. -/
theorem disabled_no_writes_no_envelope_witness :
    GateOff emptyStore.featureState ∧
    (Population.populate_advisories_ws2 noPopFaults emptyStore c6Analysis
      noopComputer 1 0 0).1 = emptyStore ∧
    Exposure.get_advisory_envelope noExpFaults emptyStore bucket30UUID
      oneUUID 0 = Except.ok none := by
  have hOff : GateOff emptyStore.featureState := Or.inl rfl
  obtain ⟨h1, h2⟩ := disabled_no_writes_no_envelope noPopFaults noExpFaults
    emptyStore c6Analysis noopComputer 1 0 0 bucket30UUID oneUUID 0 hOff
  exact ⟨hOff, h1, h2⟩

/-- C6: in the concrete scenario (enabled, rollout 50, owner bucket 30,
budget max 1, plan of two computable requests) exactly one Signal is
persisted, the budget ends exhausted at 1, `budget_exhausted` is logged for
the denied request, and compute is attempted exactly once — never for the
denied `opportunity_risk` request. -/
theorem scenario_budget_one_of_two :
    Population._deterministic_bucket c6Analysis.resumeId = 30 ∧
    c6Run.1.signals.map P3AdvisorySignal.signalType = ["fit_stability"] ∧
    c6Run.1.budgets =
      [{ resumeId := bucket30UUID, budgetDay := 0, maxAdvisories := 1,
         usedAdvisories := 1 }] ∧
    c6Run.1.cache.length = 1 ∧
    c6Run.2.countP (fun e => e.name == "phase3.budget_exhausted") = 2 ∧
    c6Run.2.countP (fun e => e.name == "phase3.compute_attempted") = 1 ∧
    c6Run.2.countP (fun e =>
      e.name == "phase3.compute_attempted" &&
        decide (e.sigType = some "opportunity_risk")) = 0 := by
  decide

/-- C5 exhibit: a failure injected into the uncovered envelope-rendering
region propagates out of `get_advisory_envelope` as an exception, while the
identical store with no fault returns an envelope — the totality break is
exactly the unguarded rendering step. -/
theorem envelope_render_failure_propagates :
    Exposure.get_advisory_envelope
      { featureLookup := false, rollout := false, signalQuery := false,
        render := true } exSignalStore bucket30UUID oneUUID 0 =
      Except.error () ∧
    (∃ env, Exposure.get_advisory_envelope noExpFaults exSignalStore
      bucket30UUID oneUUID 0 = Except.ok env) := by
  exact ⟨rfl, ⟨_, rfl⟩⟩

/-! Exposure query lemmas (C7). -/

theorem mem_queryActiveSignals {db : Store} {rid jid : UUIDBytes} {now : Nat}
    {s : P3AdvisorySignal}
    (h : s ∈ Exposure.queryActiveSignals db rid jid now) :
    s.resumeId = rid ∧ s.jobPostingId = jid ∧ s.isActive = true ∧
      ∀ e, s.expiresAt = some e → now < e := by
  unfold Exposure.queryActiveSignals at h
  rw [List.mem_insertionSort] at h
  obtain ⟨hmem, hf⟩ := List.mem_filter.mp h
  cases hexp : s.expiresAt
  · simp [Exposure.signalFilter, hexp] at hf
    refine ⟨hf.1.1, hf.1.2, hf.2, ?_⟩
    intro e he
    exact Option.noConfusion he
  · simp [Exposure.signalFilter, hexp] at hf
    refine ⟨hf.1.1.1, hf.1.1.2, hf.1.2, ?_⟩
    intro e he
    injection he with he'
    rw [← he']
    exact hf.2

theorem query_sorted (db : Store) (rid jid : UUIDBytes) (now : Nat) :
    List.Pairwise (fun a b : P3AdvisorySignal => b.computedAt ≤ a.computedAt)
      (Exposure.queryActiveSignals db rid jid now) := by
  unfold Exposure.queryActiveSignals
  haveI : IsTotal P3AdvisorySignal
      (fun a b => b.computedAt ≤ a.computedAt) := ⟨fun a b => le_total _ _⟩
  haveI : IsTrans P3AdvisorySignal
      (fun a b => b.computedAt ≤ a.computedAt) :=
    ⟨fun _ _ _ h1 h2 => le_trans h2 h1⟩
  exact List.sorted_insertionSort _ _

/-- C7: whenever `getEnvelope` returns an envelope, its signal list is the
rendering of exactly the active, unexpired, owner/subject-matching stored
signals — inactive or expired rows never appear — ordered newest first by
`computed_at`; and when no qualifying signal exists the result is absent. -/
theorem exposure_filters_and_orders :
    ∀ (db : Store) (rid jid : UUIDBytes) (now : Nat),
      (∀ env, Exposure.get_advisory_envelope noExpFaults db rid jid now =
          Except.ok (some env) →
        env.signals = (Exposure.queryActiveSignals db rid jid now).map
            Exposure.renderSignal ∧
        (∀ s ∈ Exposure.queryActiveSignals db rid jid now,
          s.resumeId = rid ∧ s.jobPostingId = jid ∧ s.isActive = true ∧
            ∀ e, s.expiresAt = some e → now < e) ∧
        List.Pairwise (fun a b : Exposure.RenderedSignal =>
          b.computedAt ≤ a.computedAt) env.signals) ∧
      (Exposure.queryActiveSignals db rid jid now = [] →
        Exposure.get_advisory_envelope noExpFaults db rid jid now =
          Except.ok none) := by
  intro db rid jid now
  constructor
  · intro env henv
    unfold Exposure.get_advisory_envelope at henv
    by_cases hE : Exposure._is_feature_enabled db.featureState = true
    · by_cases hR : Exposure._is_rollout_eligible rid
          ((db.featureState.bind fun fs => fs.rolloutPercent).getD 0) = true
      · rcases hq : Exposure.queryActiveSignals db rid jid now with _ | ⟨s0, rest⟩
        · simp [Exposure._load_feature_state, noExpFaults, hE, hR, hq] at henv
        · simp [Exposure._load_feature_state, noExpFaults, hE, hR, hq] at henv
          subst henv
          refine ⟨by simp, fun s hs => mem_queryActiveSignals
            (show s ∈ Exposure.queryActiveSignals db rid jid now by
              rw [hq]; exact hs), ?_⟩
          have hp := query_sorted db rid jid now
          rw [hq] at hp
          have hgoal : List.Pairwise (fun a b : Exposure.RenderedSignal =>
              b.computedAt ≤ a.computedAt)
              (List.map Exposure.renderSignal (s0 :: rest)) := by
            rw [List.pairwise_map]
            exact hp
          exact hgoal
      · rw [Bool.not_eq_true] at hR
        simp [Exposure._load_feature_state, noExpFaults, hE, hR] at henv
    · rw [Bool.not_eq_true] at hE
      simp [Exposure._load_feature_state, noExpFaults, hE] at henv
  · intro hq
    unfold Exposure.get_advisory_envelope
    by_cases hE : Exposure._is_feature_enabled db.featureState = true
    · by_cases hR : Exposure._is_rollout_eligible rid
          ((db.featureState.bind fun fs => fs.rolloutPercent).getD 0) = true
      · simp [Exposure._load_feature_state, noExpFaults, hE, hR, hq]
      · rw [Bool.not_eq_true] at hR
        simp [Exposure._load_feature_state, noExpFaults, hE, hR]
    · rw [Bool.not_eq_true] at hE
      simp [Exposure._load_feature_state, noExpFaults, hE]

/-- Witness for C7: the concrete eligible store returns its envelope, whose
signal list is the rendered query result. -/
theorem exposure_filters_and_orders_witness :
    Exposure.get_advisory_envelope noExpFaults exSignalStore bucket30UUID
      oneUUID 0 = Except.ok (some exEnvelope) ∧
    exEnvelope.signals =
      (Exposure.queryActiveSignals exSignalStore bucket30UUID oneUUID 0).map
        Exposure.renderSignal := by
  have h : Exposure.get_advisory_envelope noExpFaults exSignalStore
      bucket30UUID oneUUID 0 = Except.ok (some exEnvelope) := rfl
  exact ⟨h,
    ((exposure_filters_and_orders exSignalStore bucket30UUID oneUUID 0).1
      exEnvelope h).1⟩

/-- Witness for C1 at a concrete store: capacity 1, three consume calls
grant exactly one and leave `used_advisories = 1`. -/
theorem budget_consume_correct_witness :
    (1 : Nat) < 3 ∧
    (consumeCalls 3
      { featureState := none,
        budgets := [{ resumeId := [0], budgetDay := 0,
                      maxAdvisories := (1 : Int), usedAdvisories := (0 : Int) }],
        cache := [], signals := [], nextId := 0 } [0] 0).2 = 1 := by
  refine ⟨by decide, ?_⟩
  exact (budget_consume_correct.2.2 3 1 _ [0] 0 (by decide) rfl).1

/-! Storage-operation effect lemmas (C2). -/

theorem ensure_result (db : Store) (rid : UUIDBytes) (maxA : Int) (today : Nat) :
    Population._ensure_budget db rid maxA today false =
      (if db.budgets.any (Population.budgetKeyMatch rid today) = true then db
       else { db with budgets := db.budgets ++
         [{ resumeId := rid, budgetDay := today, maxAdvisories := maxA,
            usedAdvisories := 0 }] }, true) := by
  unfold Population._ensure_budget
  rw [if_neg Bool.false_ne_true]
  split <;> rfl

theorem consume_store (db : Store) (rid : UUIDBytes) (today : Nat) :
    (Population._consume_budget db rid today false).1 =
      { db with budgets := db.budgets.map fun r =>
          if Population.consumeMatch rid today r then
            { r with usedAdvisories := r.usedAdvisories + 1 }
          else r } := by
  unfold Population._consume_budget
  rw [if_neg Bool.false_ne_true]

theorem consume_granted_eq (db : Store) (rid : UUIDBytes) (today : Nat) :
    (Population._consume_budget db rid today false).2.1 =
      (db.budgets.countP (Population.consumeMatch rid today) == 1) := by
  unfold Population._consume_budget
  rw [if_neg Bool.false_ne_true]

theorem select_result (db : Store) (k : String) :
    Population._select_cache db k false =
      ((db.cache.find? fun r => decide (r.cacheKey = k), true),
       [{ name := if (db.cache.find? fun r => decide (r.cacheKey = k)).isSome
            then "phase3.cache_hit" else "phase3.cache_miss",
          stage := "population.cache_lookup",
          decision := if (db.cache.find? fun r => decide (r.cacheKey = k)).isSome
            then "cache_hit" else "cache_miss",
          reason := if (db.cache.find? fun r => decide (r.cacheKey = k)).isSome
            then "cache_reused" else "cache_absent" }]) := by
  unfold Population._select_cache
  rw [if_neg Bool.false_ne_true]

theorem persist_budgets (db : Store) (analysis : AnalysisResult)
    (res : AdvisoryComputationResult) (k : String) (ilf : Bool)
    (snapshot : Store) (now : Nat) :
    (Population._persist_signal db analysis res k false ilf snapshot
      now).1.budgets = db.budgets := by
  unfold Population._persist_signal
  rw [if_neg Bool.false_ne_true]
  dsimp only
  split <;> rfl

theorem persist_featureState (db : Store) (analysis : AnalysisResult)
    (res : AdvisoryComputationResult) (k : String) (ilf : Bool)
    (snapshot : Store) (now : Nat) :
    (Population._persist_signal db analysis res k false ilf snapshot
      now).1.featureState = db.featureState := by
  unfold Population._persist_signal
  rw [if_neg Bool.false_ne_true]
  dsimp only
  split <;> rfl

theorem persist_cache_eq (db : Store) (analysis : AnalysisResult)
    (res : AdvisoryComputationResult) (k : String) (ilf : Bool)
    (snapshot : Store) (now : Nat) :
    (Population._persist_signal db analysis res k false ilf snapshot
      now).1.cache =
      (if (db.cache.any fun r => decide (r.cacheKey = k)) = true then db.cache
       else db.cache ++ [{ cacheKey := k, signalId := db.nextId }]) := by
  unfold Population._persist_signal
  rw [if_neg Bool.false_ne_true]
  dsimp only
  split <;> rfl

theorem persist_signals_eq (db : Store) (analysis : AnalysisResult)
    (res : AdvisoryComputationResult) (k : String) (ilf : Bool)
    (snapshot : Store) (now : Nat) :
    (Population._persist_signal db analysis res k false ilf snapshot
      now).1.signals =
      (if (db.cache.any fun r => decide (r.cacheKey = k)) = true then
        (db.signals ++ [newSignal db analysis res now]).filter fun s =>
          decide (s.id ≠ db.nextId)
       else db.signals ++ [newSignal db analysis res now]) := by
  unfold Population._persist_signal
  rw [if_neg Bool.false_ne_true]
  dsimp only
  split <;> rfl

theorem filter_fresh_append (db : Store) (analysis : AnalysisResult)
    (res : AdvisoryComputationResult) (now : Nat) (h : SignalIdsFresh db) :
    (db.signals ++ [newSignal db analysis res now]).filter
      (fun s => decide (s.id ≠ db.nextId)) = db.signals := by
  rw [List.filter_append]
  have h1 : db.signals.filter (fun s => decide (s.id ≠ db.nextId)) =
      db.signals := by
    apply List.filter_eq_self.mpr
    intro s hs
    have := h s hs
    simp only [decide_eq_true_eq]
    omega
  have h2 : [newSignal db analysis res now].filter
      (fun s => decide (s.id ≠ db.nextId)) = ([] : List P3AdvisorySignal) := by
    simp [newSignal]
  rw [h1, h2, List.append_nil]

/-! Budget uniqueness and exhaustion lemmas (C2). -/

theorem budgetKeyMatch_eval {rid : UUIDBytes} {day : Nat}
    {r : P3AdvisoryBudget} :
    Population.budgetKeyMatch rid day r = true ↔
      r.resumeId = rid ∧ r.budgetDay = day := by
  simp [Population.budgetKeyMatch]

theorem consumeMatch_key {rid : UUIDBytes} {day : Nat} {r : P3AdvisoryBudget}
    (h : Population.consumeMatch rid day r = true) :
    r.resumeId = rid ∧ r.budgetDay = day ∧
      r.usedAdvisories < r.maxAdvisories := by
  simp [Population.consumeMatch, Population.budgetKeyMatch] at h
  exact ⟨h.1.1, h.1.2, h.2⟩

theorem countP_consumeMatch_le_one {l : List P3AdvisoryBudget}
    (h : l.Pairwise BudKeyDistinct) (rid : UUIDBytes) (day : Nat) :
    l.countP (Population.consumeMatch rid day) ≤ 1 := by
  induction l with
  | nil => simp
  | cons r t ih =>
      obtain ⟨hr, ht⟩ := List.pairwise_cons.mp h
      by_cases hm : Population.consumeMatch rid day r = true
      · rw [List.countP_cons_of_pos _ _ hm]
        have ht0 : t.countP (Population.consumeMatch rid day) = 0 := by
          rw [List.countP_eq_zero]
          intro r' hr' hm'
          obtain ⟨h1, h2, _⟩ := consumeMatch_key hm
          obtain ⟨h1', h2', _⟩ := consumeMatch_key hm'
          exact hr r' hr' ⟨h1.trans h1'.symm, h2.trans h2'.symm⟩
        omega
      · rw [List.countP_cons_of_neg _ _ hm]
        exact ih ht

theorem pairwise_key_unique {l : List P3AdvisoryBudget}
    (h : l.Pairwise BudKeyDistinct) :
    ∀ a ∈ l, ∀ b ∈ l, a.resumeId = b.resumeId → a.budgetDay = b.budgetDay →
      a = b := by
  induction l with
  | nil => simp
  | cons x t ih =>
      obtain ⟨hx, ht⟩ := List.pairwise_cons.mp h
      intro a ha b hb h1 h2
      rcases List.mem_cons.mp ha with rfl | ha' <;>
        rcases List.mem_cons.mp hb with rfl | hb'
      · rfl
      · exact absurd ⟨h1, h2⟩ (hx b hb')
      · exact absurd ⟨h1.symm, h2.symm⟩ (hx a ha')
      · exact ih ht a ha' b hb' h1 h2

theorem denied_gives_exhausted (db : Store) (rid : UUIDBytes) (day : Nat)
    (hu : BudgetUnique db)
    (hrow : db.budgets.any (Population.budgetKeyMatch rid day) = true)
    (hden : (Population._consume_budget db rid day false).2.1 = false) :
    BudgetExhaustedFor db rid day := by
  obtain ⟨r, hr, hkm⟩ := List.any_eq_true.mp hrow
  by_cases hc : r.usedAdvisories < r.maxAdvisories
  · exfalso
    have hcm : Population.consumeMatch rid day r = true := by
      simp [Population.consumeMatch, hkm, hc]
    have hpos : 0 < db.budgets.countP (Population.consumeMatch rid day) :=
      List.countP_pos_iff.mpr ⟨r, hr, hcm⟩
    have hle := countP_consumeMatch_le_one hu rid day
    have h1 : db.budgets.countP (Population.consumeMatch rid day) = 1 := by
      omega
    rw [consume_granted_eq, h1] at hden
    simp at hden
  · exact ⟨r, hr, hkm, not_lt.mp hc⟩

theorem consume_denied_of_exhausted (db : Store) (rid : UUIDBytes) (day : Nat)
    (hu : BudgetUnique db) (hex : BudgetExhaustedFor db rid day) :
    (Population._consume_budget db rid day false).2.1 = false := by
  rw [consume_granted_eq]
  have h0 : db.budgets.countP (Population.consumeMatch rid day) = 0 := by
    rw [List.countP_eq_zero]
    intro r' hr' hm'
    obtain ⟨r, hr, hkm, hge⟩ := hex
    obtain ⟨h1', h2', hlt'⟩ := consumeMatch_key hm'
    obtain ⟨h1, h2⟩ := budgetKeyMatch_eval.mp hkm
    have heq : r = r' := by
      rcases pairwise_key_unique hu r hr r' hr' (h1.trans h1'.symm)
        (h2.trans h2'.symm) with h
      exact h
    subst heq
    omega
  rw [h0]
  rfl

/-! Preservation lemmas (C2). -/

theorem exhausted_of_budgets_eq {db db' : Store} {rid : UUIDBytes} {day : Nat}
    (he : db'.budgets = db.budgets) (h : BudgetExhaustedFor db rid day) :
    BudgetExhaustedFor db' rid day := by
  obtain ⟨r, hr, h1, h2⟩ := h
  exact ⟨r, he ▸ hr, h1, h2⟩

theorem unique_of_budgets_eq {db db' : Store} (he : db'.budgets = db.budgets)
    (hu : BudgetUnique db) : BudgetUnique db' := by
  unfold BudgetUnique at hu ⊢
  rw [he]
  exact hu

theorem exhausted_ensure (db : Store) (rid' : UUIDBytes) (maxA : Int)
    (day' : Nat) {rid : UUIDBytes} {day : Nat}
    (h : BudgetExhaustedFor db rid day) :
    BudgetExhaustedFor (Population._ensure_budget db rid' maxA day' false).1
      rid day := by
  rw [ensure_result]
  dsimp only
  split
  · exact h
  · obtain ⟨r, hr, h1, h2⟩ := h
    exact ⟨r, List.mem_append_left _ hr, h1, h2⟩

theorem exhausted_consume (db : Store) (rid' : UUIDBytes) (day' : Nat)
    {rid : UUIDBytes} {day : Nat} (h : BudgetExhaustedFor db rid day) :
    BudgetExhaustedFor (Population._consume_budget db rid' day' false).1
      rid day := by
  rw [consume_store]
  obtain ⟨r, hr, h1, h2⟩ := h
  have hnc : ¬(Population.consumeMatch rid' day' r = true) := by
    intro hc
    obtain ⟨_, _, hlt⟩ := consumeMatch_key hc
    omega
  refine ⟨r, ?_, h1, h2⟩
  exact List.mem_map.mpr ⟨r, hr, if_neg hnc⟩

theorem consume_step_key (rid : UUIDBytes) (today : Nat)
    (r : P3AdvisoryBudget) :
    (if Population.consumeMatch rid today r then
      { r with usedAdvisories := r.usedAdvisories + 1 } else r).resumeId =
      r.resumeId ∧
    (if Population.consumeMatch rid today r then
      { r with usedAdvisories := r.usedAdvisories + 1 } else r).budgetDay =
      r.budgetDay := by
  split <;> exact ⟨rfl, rfl⟩

theorem unique_ensure (db : Store) (rid : UUIDBytes) (maxA : Int)
    (today : Nat) (hu : BudgetUnique db) :
    BudgetUnique (Population._ensure_budget db rid maxA today false).1 := by
  rw [ensure_result]
  dsimp only
  split
  · exact hu
  next hany =>
    unfold BudgetUnique at hu ⊢
    show (db.budgets ++
      [({ resumeId := rid, budgetDay := today, maxAdvisories := maxA,
          usedAdvisories := 0 } : P3AdvisoryBudget)]).Pairwise BudKeyDistinct
    rw [List.pairwise_append]
    refine ⟨hu, List.pairwise_singleton _ _, ?_⟩
    intro a ha b hb
    rcases List.mem_singleton.mp hb with rfl
    intro hab
    exact hany (List.any_eq_true.mpr
      ⟨a, ha, budgetKeyMatch_eval.mpr ⟨hab.1, hab.2⟩⟩)

theorem unique_consume (db : Store) (rid : UUIDBytes) (today : Nat)
    (hu : BudgetUnique db) :
    BudgetUnique (Population._consume_budget db rid today false).1 := by
  rw [consume_store]
  unfold BudgetUnique at hu ⊢
  refine List.Pairwise.map _ (fun a b hab => ?_) hu
  intro hk
  exact hab
    ⟨((consume_step_key rid today a).1.symm.trans hk.1).trans
        (consume_step_key rid today b).1,
      ((consume_step_key rid today a).2.symm.trans hk.2).trans
        (consume_step_key rid today b).2⟩

theorem ensure_frame (db : Store) (rid : UUIDBytes) (maxA : Int)
    (today : Nat) :
    (Population._ensure_budget db rid maxA today false).1.cache = db.cache ∧
    (Population._ensure_budget db rid maxA today false).1.signals =
      db.signals ∧
    (Population._ensure_budget db rid maxA today false).1.featureState =
      db.featureState ∧
    (Population._ensure_budget db rid maxA today false).1.nextId =
      db.nextId := by
  rw [ensure_result]
  dsimp only
  split <;> exact ⟨rfl, rfl, rfl, rfl⟩

theorem consume_frame (db : Store) (rid : UUIDBytes) (today : Nat) :
    (Population._consume_budget db rid today false).1.cache = db.cache ∧
    (Population._consume_budget db rid today false).1.signals = db.signals ∧
    (Population._consume_budget db rid today false).1.featureState =
      db.featureState ∧
    (Population._consume_budget db rid today false).1.nextId = db.nextId := by
  rw [consume_store]
  exact ⟨rfl, rfl, rfl, rfl⟩

theorem ensure_row_exists (db : Store) (rid : UUIDBytes) (maxA : Int)
    (today : Nat) :
    (Population._ensure_budget db rid maxA today false).1.budgets.any
      (Population.budgetKeyMatch rid today) = true := by
  rw [ensure_result]
  dsimp only
  split
  next h => exact h
  next h =>
    apply List.any_eq_true.mpr
    exact ⟨⟨rid, today, maxA, 0⟩, by simp,
      budgetKeyMatch_eval.mpr ⟨rfl, rfl⟩⟩

theorem cacheHasKey_of_find {db : Store} {k : String} {entry : P3AdvisoryCache}
    (h : db.cache.find? (fun r => decide (r.cacheKey = k)) = some entry) :
    cacheHasKey db k = true := by
  unfold cacheHasKey
  have hp := List.find?_some h
  exact List.any_eq_true.mpr ⟨entry, List.mem_of_find?_eq_some h, hp⟩

theorem cacheHasKey_of_cache_eq_append {db db' : Store} {k : String}
    {tl : List P3AdvisoryCache} (h : db'.cache = db.cache ++ tl)
    (hk : cacheHasKey db k = true) : cacheHasKey db' k = true := by
  unfold cacheHasKey at hk ⊢
  rw [h, List.any_append, hk]
  rfl

theorem noPopFaults_featureLookup : noPopFaults.featureLookup = false := rfl

theorem noPopFaults_plan : noPopFaults.plan = false := rfl

theorem noPopFaults_cacheKeyGen (i : Nat) : noPopFaults.cacheKeyGen i = false := rfl

theorem noPopFaults_cacheLookup (i : Nat) : noPopFaults.cacheLookup i = false := rfl

theorem noPopFaults_ensureBudget (i : Nat) : noPopFaults.ensureBudget i = false := rfl

theorem noPopFaults_consumeBudget (i : Nat) : noPopFaults.consumeBudget i = false := rfl

theorem noPopFaults_compute (i : Nat) : noPopFaults.compute i = false := rfl

theorem noPopFaults_persist (i : Nat) : noPopFaults.persist i = false := rfl

theorem noPopFaults_persistInnerLookup (i : Nat) :
    noPopFaults.persistInnerLookup i = false := rfl

theorem cacheHasKey_false_of_find_none {db : Store} {k : String}
    (h : db.cache.find? (fun r => decide (r.cacheKey = k)) = none) :
    cacheHasKey db k = false := by
  unfold cacheHasKey
  rw [List.any_eq_false]
  intro x hx
  exact List.find?_eq_none.mp h x hx

theorem cacheHasKey_of_cache_eq {db db' : Store} (h : db'.cache = db.cache)
    (k : String) : cacheHasKey db' k = cacheHasKey db k := by
  unfold cacheHasKey
  rw [h]

theorem processRequest_establishes (analysis : AnalysisResult)
    (computer : AdvisoryComputer) (maxA : Int) (today now : Nat)
    (snapshot : Store) (i : Nat) (db : Store)
    (req : AdvisoryComputationRequest) (hu : BudgetUnique db)
    (hecho : ComputerEchoes analysis computer) :
    BudgetUnique (Population.processRequest noPopFaults analysis computer maxA
      today now snapshot i db req).1 ∧
    (∃ tl, (Population.processRequest noPopFaults analysis computer maxA today
      now snapshot i db req).1.cache = db.cache ++ tl) ∧
    (Population.processRequest noPopFaults analysis computer maxA today now
      snapshot i db req).1.featureState = db.featureState ∧
    (∀ rid day, BudgetExhaustedFor db rid day →
      BudgetExhaustedFor (Population.processRequest noPopFaults analysis
        computer maxA today now snapshot i db req).1 rid day) ∧
    ReqSettled today analysis computer (Population.processRequest noPopFaults
      analysis computer maxA today now snapshot i db req).1 req ∧
    (∃ added, (Population.processRequest noPopFaults analysis computer maxA
        today now snapshot i db req).1.signals = db.signals ++ added ∧
      added.Pairwise TypeDistinct ∧
      (∀ a ∈ added, cacheHasKey (Population.processRequest noPopFaults
        analysis computer maxA today now snapshot i db req).1
        (Population._cache_key analysis.id a.signalType a.modelVersion) =
          true) ∧
      (∀ a ∈ added, cacheHasKey db
        (Population._cache_key analysis.id a.signalType a.modelVersion) =
          false)) := by
  have ensure_ok : (Population._ensure_budget db analysis.resumeId maxA today
      false).2 = true := by
    rw [ensure_result]
  unfold Population.processRequest
  simp only [noPopFaults_cacheKeyGen, noPopFaults_cacheLookup,
    noPopFaults_ensureBudget, noPopFaults_consumeBudget, noPopFaults_compute,
    noPopFaults_persist, noPopFaults_persistInnerLookup, select_result,
    Bool.false_eq_true, if_false, Bool.not_true, Bool.not_false,
    eq_self_iff_true, if_true]
  cases hfind : db.cache.find? (fun r => decide (r.cacheKey =
      Population._cache_key analysis.id req.signalType req.modelVersion)) with
  | some entry =>
      simp only [hfind, Option.isSome_some, eq_self_iff_true, if_true]
      exact ⟨hu, ⟨[], by simp⟩, by trivial, fun rid day h => h,
        Or.inl (cacheHasKey_of_find hfind),
        ⟨[], by simp, List.Pairwise.nil, by simp, by simp⟩⟩
  | none =>
      simp only [hfind, Option.isSome_none, Bool.false_eq_true, if_false,
        ensure_ok, Bool.not_true, consume_granted_eq]
      cases hgr : (Population._ensure_budget db analysis.resumeId maxA today
          false).1.budgets.countP
          (Population.consumeMatch analysis.resumeId today) == 1 with
      | false =>
          simp only [Bool.not_false, eq_self_iff_true, if_true]
          have huE := unique_ensure db analysis.resumeId maxA today hu
          have hden : (Population._consume_budget
              (Population._ensure_budget db analysis.resumeId maxA today
                false).1 analysis.resumeId today false).2.1 = false := by
            rw [consume_granted_eq, hgr]
          have hexE := denied_gives_exhausted _ analysis.resumeId today huE
            (ensure_row_exists db analysis.resumeId maxA today) hden
          refine ⟨unique_consume _ _ _ huE, ⟨[], ?_⟩, ?_, ?_, ?_, ?_⟩
          · rw [(consume_frame _ _ _).1, (ensure_frame _ _ _ _).1]
            simp
          · rw [(consume_frame _ _ _).2.2.1, (ensure_frame _ _ _ _).2.2.1]
          · intro rid day h
            exact exhausted_consume _ _ _ (exhausted_ensure _ _ _ _ h)
          · exact Or.inr (Or.inl (exhausted_consume _ _ _ hexE))
          · refine ⟨[], ?_, List.Pairwise.nil, by simp, by simp⟩
            rw [(consume_frame _ _ _).2.1, (ensure_frame _ _ _ _).2.1]
            simp
      | true =>
          simp only [Bool.not_true, Bool.false_eq_true, if_false]
          have huE := unique_ensure db analysis.resumeId maxA today hu
          have huC := unique_consume _ analysis.resumeId today huE
          cases hcomp : computer.compute analysis req with
          | none =>
              refine ⟨huC, ⟨[], ?_⟩, ?_, ?_, ?_, ?_⟩
              · rw [(consume_frame _ _ _).1, (ensure_frame _ _ _ _).1]
                simp
              · rw [(consume_frame _ _ _).2.2.1, (ensure_frame _ _ _ _).2.2.1]
              · intro rid day h
                exact exhausted_consume _ _ _ (exhausted_ensure _ _ _ _ h)
              · exact Or.inr (Or.inr hcomp)
              · refine ⟨[], ?_, List.Pairwise.nil, by simp, by simp⟩
                rw [(consume_frame _ _ _).2.1, (ensure_frame _ _ _ _).2.1]
                simp
          | some res =>
              obtain ⟨he1, he2⟩ := hecho req res hcomp
              have hcc : (Population._consume_budget
                  (Population._ensure_budget db analysis.resumeId maxA today
                    false).1 analysis.resumeId today false).1.cache =
                  db.cache := by
                rw [(consume_frame _ _ _).1, (ensure_frame _ _ _ _).1]
              have hcs : (Population._consume_budget
                  (Population._ensure_budget db analysis.resumeId maxA today
                    false).1 analysis.resumeId today false).1.signals =
                  db.signals := by
                rw [(consume_frame _ _ _).2.1, (ensure_frame _ _ _ _).2.1]
              have hcf : (Population._consume_budget
                  (Population._ensure_budget db analysis.resumeId maxA today
                    false).1 analysis.resumeId today false).1.featureState =
                  db.featureState := by
                rw [(consume_frame _ _ _).2.2.1, (ensure_frame _ _ _ _).2.2.1]
              have h0 := cacheHasKey_false_of_find_none hfind
              have hkrawC : ((Population._consume_budget
                  (Population._ensure_budget db analysis.resumeId maxA today
                    false).1 analysis.resumeId today false).1.cache.any
                  fun r => decide (r.cacheKey = Population._cache_key
                    analysis.id req.signalType req.modelVersion)) = false := by
                rw [hcc]
                unfold cacheHasKey at h0
                exact h0
              have hkrawC' : ¬(((Population._consume_budget
                  (Population._ensure_budget db analysis.resumeId maxA today
                    false).1 analysis.resumeId today false).1.cache.any
                  fun r => decide (r.cacheKey = Population._cache_key
                    analysis.id req.signalType req.modelVersion)) = true) := by
                rw [hkrawC]
                exact Bool.false_ne_true
              refine ⟨?_, ?_, ?_, ?_, ?_, ?_⟩
              · exact unique_of_budgets_eq
                  (persist_budgets _ _ _ _ _ _ _) huC
              · rw [persist_cache_eq, hcc]
                split
                · exact ⟨[], by simp⟩
                · exact ⟨_, rfl⟩
              · rw [persist_featureState, hcf]
              · intro rid day h
                exact exhausted_of_budgets_eq (persist_budgets _ _ _ _ _ _ _)
                  (exhausted_consume _ _ _ (exhausted_ensure _ _ _ _ h))
              · refine Or.inl ?_
                unfold cacheHasKey
                rw [persist_cache_eq, hcc]
                split
                next hclaimed => exact hclaimed
                next hfree => simp [List.any_append]
              · refine ⟨[newSignal (Population._consume_budget
                  (Population._ensure_budget db analysis.resumeId maxA today
                    false).1 analysis.resumeId today false).1 analysis res
                  now], ?_, List.pairwise_singleton _ _, ?_, ?_⟩
                · rw [persist_signals_eq, if_neg hkrawC', hcs]
                · intro a ha
                  rcases List.mem_singleton.mp ha with rfl
                  simp only [newSignal, he1, he2]
                  unfold cacheHasKey
                  rw [persist_cache_eq, if_neg hkrawC']
                  simp [List.any_append]
                · intro a ha
                  rcases List.mem_singleton.mp ha with rfl
                  simp only [newSignal, he1, he2]
                  exact h0

theorem consume_events_safe (db : Store) (rid : UUIDBytes) (today : Nat) :
    ∀ e ∈ (Population._consume_budget db rid today false).2.2,
      e.name = "phase3.budget_granted" ∨ e.name = "phase3.budget_exhausted" := by
  unfold Population._consume_budget
  rw [if_neg Bool.false_ne_true]
  intro e he
  rcases List.mem_singleton.mp he with rfl
  dsimp only
  split
  · exact Or.inl rfl
  · exact Or.inr rfl

theorem processRequest_settled (analysis : AnalysisResult)
    (computer : AdvisoryComputer) (maxA : Int) (today now : Nat)
    (snapshot : Store) (i : Nat) (db : Store)
    (req : AdvisoryComputationRequest) (hu : BudgetUnique db)
    (hs : ReqSettled today analysis computer db req) :
    (Population.processRequest noPopFaults analysis computer maxA today now
      snapshot i db req).1.signals = db.signals ∧
    (Population.processRequest noPopFaults analysis computer maxA today now
      snapshot i db req).1.cache = db.cache ∧
    (Population.processRequest noPopFaults analysis computer maxA today now
      snapshot i db req).1.featureState = db.featureState ∧
    BudgetUnique (Population.processRequest noPopFaults analysis computer maxA
      today now snapshot i db req).1 ∧
    (∀ rid day, BudgetExhaustedFor db rid day →
      BudgetExhaustedFor (Population.processRequest noPopFaults analysis
        computer maxA today now snapshot i db req).1 rid day) ∧
    (∀ e ∈ (Population.processRequest noPopFaults analysis computer maxA today
      now snapshot i db req).2, e.name = "phase3.compute_attempted" →
      cacheHasKey db (Population._cache_key analysis.id req.signalType
        req.modelVersion) = false ∧
      e.sigType = some req.signalType ∧ e.modelVer = some req.modelVersion) := by
  have ensure_ok : (Population._ensure_budget db analysis.resumeId maxA today
      false).2 = true := by
    rw [ensure_result]
  unfold Population.processRequest
  simp only [noPopFaults_cacheKeyGen, noPopFaults_cacheLookup,
    noPopFaults_ensureBudget, noPopFaults_consumeBudget, noPopFaults_compute,
    noPopFaults_persist, noPopFaults_persistInnerLookup, select_result,
    Bool.false_eq_true, if_false, Bool.not_true, Bool.not_false,
    eq_self_iff_true, if_true]
  cases hfind : db.cache.find? (fun r => decide (r.cacheKey =
      Population._cache_key analysis.id req.signalType req.modelVersion)) with
  | some entry =>
      simp only [hfind, Option.isSome_some, eq_self_iff_true, if_true]
      refine ⟨by trivial, by trivial, by trivial, hu, fun rid day h => h, ?_⟩
      intro e he hname
      simp only [List.mem_append, List.mem_singleton] at he
      rcases he with rfl | rfl
      · exact absurd hname (by decide)
      · exact absurd hname (by decide)
  | none =>
      have hnokey : cacheHasKey db (Population._cache_key analysis.id
          req.signalType req.modelVersion) = false :=
        cacheHasKey_false_of_find_none hfind
      simp only [hfind, Option.isSome_none, Bool.false_eq_true, if_false,
        ensure_ok, Bool.not_true, consume_granted_eq]
      have huE := unique_ensure db analysis.resumeId maxA today hu
      cases hgr : (Population._ensure_budget db analysis.resumeId maxA today
          false).1.budgets.countP
          (Population.consumeMatch analysis.resumeId today) == 1 with
      | false =>
          simp only [Bool.not_false, eq_self_iff_true, if_true]
          refine ⟨?_, ?_, ?_, unique_consume _ _ _ huE, ?_, ?_⟩
          · rw [(consume_frame _ _ _).2.1, (ensure_frame _ _ _ _).2.1]
          · rw [(consume_frame _ _ _).1, (ensure_frame _ _ _ _).1]
          · rw [(consume_frame _ _ _).2.2.1, (ensure_frame _ _ _ _).2.2.1]
          · intro rid day h
            exact exhausted_consume _ _ _ (exhausted_ensure _ _ _ _ h)
          · intro e he hname
            simp only [List.mem_append, List.mem_singleton] at he
            rcases he with (rfl | he) | rfl
            · exact absurd hname (by decide)
            · rcases consume_events_safe _ _ _ e he with h | h <;>
                · rw [hname] at h
                  exact absurd h (by decide)
            · exact absurd hname (by decide)
      | true =>
          simp only [Bool.not_true, Bool.false_eq_true, if_false]
          rcases hs with hk | hex | hnone
          · rw [hnokey] at hk
            exact absurd hk (by decide)
          · exfalso
            have hexE := exhausted_ensure db analysis.resumeId maxA today hex
            have hden := consume_denied_of_exhausted _ analysis.resumeId today
              huE hexE
            rw [consume_granted_eq, hgr] at hden
            exact Bool.noConfusion hden
          · cases hcomp : computer.compute analysis req with
            | some res => rw [hnone] at hcomp; exact Option.noConfusion hcomp
            | none =>
                refine ⟨?_, ?_, ?_, unique_consume _ _ _ huE, ?_, ?_⟩
                · rw [(consume_frame _ _ _).2.1, (ensure_frame _ _ _ _).2.1]
                · rw [(consume_frame _ _ _).1, (ensure_frame _ _ _ _).1]
                · rw [(consume_frame _ _ _).2.2.1,
                    (ensure_frame _ _ _ _).2.2.1]
                · intro rid day h
                  exact exhausted_consume _ _ _ (exhausted_ensure _ _ _ _ h)
                · intro e he hname
                  simp only [List.mem_append, List.mem_singleton] at he
                  rcases he with ((rfl | he) | rfl) | rfl
                  · exact absurd hname (by decide)
                  · rcases consume_events_safe _ _ _ e he with h | h <;>
                      · rw [hname] at h
                        exact absurd h (by decide)
                  · exact ⟨hnokey, rfl, rfl⟩
                  · exact absurd hname (by decide)

theorem settled_mono {today : Nat} {analysis : AnalysisResult}
    {computer : AdvisoryComputer} {req : AdvisoryComputationRequest}
    {db1 db2 : Store} (h : ReqSettled today analysis computer db1 req)
    (hc : ∃ tl, db2.cache = db1.cache ++ tl)
    (hex : BudgetExhaustedFor db1 analysis.resumeId today →
      BudgetExhaustedFor db2 analysis.resumeId today) :
    ReqSettled today analysis computer db2 req := by
  rcases h with hk | he | hn
  · obtain ⟨tl, htl⟩ := hc
    exact Or.inl (cacheHasKey_of_cache_eq_append htl hk)
  · exact Or.inr (Or.inl (hex he))
  · exact Or.inr (Or.inr hn)

theorem popLoop_establishes (analysis : AnalysisResult)
    (computer : AdvisoryComputer) (maxA : Int) (today now : Nat)
    (snapshot : Store) (hecho : ComputerEchoes analysis computer) :
    ∀ (reqs : List AdvisoryComputationRequest) (i : Nat) (db : Store),
      BudgetUnique db →
      BudgetUnique (Population.popLoop noPopFaults analysis computer maxA
        today now snapshot i db reqs).1 ∧
      (∃ tl, (Population.popLoop noPopFaults analysis computer maxA today now
        snapshot i db reqs).1.cache = db.cache ++ tl) ∧
      (Population.popLoop noPopFaults analysis computer maxA today now
        snapshot i db reqs).1.featureState = db.featureState ∧
      (∀ rid day, BudgetExhaustedFor db rid day →
        BudgetExhaustedFor (Population.popLoop noPopFaults analysis computer
          maxA today now snapshot i db reqs).1 rid day) ∧
      (∀ req ∈ reqs, ReqSettled today analysis computer
        (Population.popLoop noPopFaults analysis computer maxA today now
          snapshot i db reqs).1 req) ∧
      (∃ added, (Population.popLoop noPopFaults analysis computer maxA today
          now snapshot i db reqs).1.signals = db.signals ++ added ∧
        added.Pairwise TypeDistinct ∧
        (∀ a ∈ added, cacheHasKey (Population.popLoop noPopFaults analysis
          computer maxA today now snapshot i db reqs).1
          (Population._cache_key analysis.id a.signalType a.modelVersion) =
            true) ∧
        (∀ a ∈ added, cacheHasKey db
          (Population._cache_key analysis.id a.signalType a.modelVersion) =
            false)) := by
  intro reqs
  induction reqs with
  | nil =>
      intro i db hu
      exact ⟨hu, ⟨[], by simp [Population.popLoop]⟩,
        by simp [Population.popLoop], fun rid day h => by
          simpa [Population.popLoop] using h,
        by simp,
        ⟨[], by simp [Population.popLoop], List.Pairwise.nil, by simp,
          by simp⟩⟩
  | cons r rest ih =>
      intro i db hu
      obtain ⟨hu1, ⟨tl1, hc1⟩, hf1, hex1, hset1, ⟨a1, hs1, hp1, hin1, hout1⟩⟩ :=
        processRequest_establishes analysis computer maxA today now snapshot i
          db r hu hecho
      obtain ⟨hu2, ⟨tl2, hc2⟩, hf2, hex2, hset2, ⟨a2, hs2, hp2, hin2, hout2⟩⟩ :=
        ih (i + 1) (Population.processRequest noPopFaults analysis computer
          maxA today now snapshot i db r).1 hu1
      simp only [Population.popLoop]
      refine ⟨hu2, ⟨tl1 ++ tl2, by rw [hc2, hc1, List.append_assoc]⟩,
        hf2.trans hf1, fun rid day h => hex2 rid day (hex1 rid day h), ?_, ?_⟩
      · intro req hreq
        rcases List.mem_cons.mp hreq with rfl | hreq'
        · exact settled_mono hset1 ⟨tl2, hc2⟩ (hex2 _ _)
        · exact hset2 req hreq'
      · refine ⟨a1 ++ a2, by rw [hs2, hs1, List.append_assoc], ?_, ?_, ?_⟩
        · rw [List.pairwise_append]
          refine ⟨hp1, hp2, ?_⟩
          intro x hx y hy
          intro hxy
          have hx' := hin1 x hx
          rw [hxy.1, hxy.2] at hx'
          rw [hout2 y hy] at hx'
          exact Bool.noConfusion hx'
        · intro a ha
          rcases List.mem_append.mp ha with ha1 | ha2
          · exact cacheHasKey_of_cache_eq_append hc2 (hin1 a ha1)
          · exact hin2 a ha2
        · intro a ha
          rcases List.mem_append.mp ha with ha1 | ha2
          · exact hout1 a ha1
          · have h := hout2 a ha2
            unfold cacheHasKey at h ⊢
            rw [hc1, List.any_append] at h
            exact (Bool.or_eq_false_iff.mp h).1

theorem popLoop_noop (analysis : AnalysisResult)
    (computer : AdvisoryComputer) (maxA : Int) (today now : Nat)
    (snapshot : Store) :
    ∀ (reqs : List AdvisoryComputationRequest) (i : Nat) (db : Store),
      BudgetUnique db →
      (∀ req ∈ reqs, ReqSettled today analysis computer db req) →
      (Population.popLoop noPopFaults analysis computer maxA today now
        snapshot i db reqs).1.signals = db.signals ∧
      (Population.popLoop noPopFaults analysis computer maxA today now
        snapshot i db reqs).1.cache = db.cache ∧
      (∀ e ∈ (Population.popLoop noPopFaults analysis computer maxA today now
        snapshot i db reqs).2, e.name = "phase3.compute_attempted" →
        ∃ req, req ∈ reqs ∧ e.sigType = some req.signalType ∧
          e.modelVer = some req.modelVersion ∧
          cacheHasKey db (Population._cache_key analysis.id req.signalType
            req.modelVersion) = false) := by
  intro reqs
  induction reqs with
  | nil =>
      intro i db hu hset
      refine ⟨by simp [Population.popLoop], by simp [Population.popLoop], ?_⟩
      intro e he
      simp [Population.popLoop] at he
  | cons r rest ih =>
      intro i db hu hset
      obtain ⟨hsig, hcache, hfeat, hu', hex', hev⟩ :=
        processRequest_settled analysis computer maxA today now snapshot i db
          r hu (hset r (List.mem_cons_self r rest))
      have hset' : ∀ req ∈ rest, ReqSettled today analysis computer
          (Population.processRequest noPopFaults analysis computer maxA today
            now snapshot i db r).1 req := by
        intro req hreq
        exact settled_mono (hset req (List.mem_cons_of_mem r hreq))
          ⟨[], by rw [hcache, List.append_nil]⟩ (hex' _ _)
      obtain ⟨hsig2, hcache2, hev2⟩ := ih (i + 1)
        (Population.processRequest noPopFaults analysis computer maxA today
          now snapshot i db r).1 hu' hset'
      simp only [Population.popLoop]
      refine ⟨hsig2.trans hsig, hcache2.trans hcache, ?_⟩
      intro e he hname
      rcases List.mem_append.mp he with he1 | he2
      · obtain ⟨hnk, hst, hmv⟩ := hev e he1 hname
        exact ⟨r, List.mem_cons_self r rest, hst, hmv, hnk⟩
      · obtain ⟨req, hreq, hst, hmv, hnk⟩ := hev2 e he2 hname
        refine ⟨req, List.mem_cons_of_mem r hreq, hst, hmv, ?_⟩
        rw [← cacheHasKey_of_cache_eq hcache]
        exact hnk

/-- C2: populate is idempotent per analysis — a second sequential run adds
no Signal and no CacheEntry, and never re-computes a request whose cache
key was claimed by the first run; the first run's new signals carry
pairwise-distinct `(signal_type, model_version)` pairs (for a strategy that
echoes the request's type and version), so at most one Signal is persisted
per computation tuple; and when `_persist_signal` finds the cache key
already claimed, the just-written Signal is deleted (stored signals are
unchanged), while on an unclaimed key exactly one Signal and its CacheEntry
are added. -/
theorem populate_idempotent_race_safe :
    (∀ (db : Store) (analysis : AnalysisResult) (computer : AdvisoryComputer)
       (maxA : Int) (today now1 now2 : Nat),
      BudgetUnique db →
      ComputerEchoes analysis computer →
      (Population.populate_advisories_ws2 noPopFaults
        (Population.populate_advisories_ws2 noPopFaults db analysis computer
          maxA today now1).1 analysis computer maxA today
        now2).1.signals =
        (Population.populate_advisories_ws2 noPopFaults db analysis computer
          maxA today now1).1.signals ∧
      (Population.populate_advisories_ws2 noPopFaults
        (Population.populate_advisories_ws2 noPopFaults db analysis computer
          maxA today now1).1 analysis computer maxA today now2).1.cache =
        (Population.populate_advisories_ws2 noPopFaults db analysis computer
          maxA today now1).1.cache ∧
      (∀ req ∈ computer.plan analysis,
        cacheHasKey (Population.populate_advisories_ws2 noPopFaults db
            analysis computer maxA today now1).1
          (Population._cache_key analysis.id req.signalType
            req.modelVersion) = true →
        ∀ e ∈ (Population.populate_advisories_ws2 noPopFaults
          (Population.populate_advisories_ws2 noPopFaults db analysis
            computer maxA today now1).1 analysis computer maxA today now2).2,
          ¬(e.name = "phase3.compute_attempted" ∧
            e.sigType = some req.signalType ∧
            e.modelVer = some req.modelVersion)) ∧
      (∃ added, (Population.populate_advisories_ws2 noPopFaults db analysis
          computer maxA today now1).1.signals = db.signals ++ added ∧
        added.Pairwise TypeDistinct)) ∧
    (∀ (db : Store) (analysis : AnalysisResult)
       (res : AdvisoryComputationResult) (k : String) (ilf : Bool)
       (snapshot : Store) (now : Nat),
      SignalIdsFresh db →
      (cacheHasKey db k = true →
        (Population._persist_signal db analysis res k false ilf snapshot
          now).1.signals = db.signals ∧
        (Population._persist_signal db analysis res k false ilf snapshot
          now).1.cache = db.cache) ∧
      (cacheHasKey db k = false →
        (Population._persist_signal db analysis res k false ilf snapshot
          now).1.signals = db.signals ++ [newSignal db analysis res now] ∧
        (Population._persist_signal db analysis res k false ilf snapshot
          now).1.cache =
          db.cache ++ [{ cacheKey := k, signalId := db.nextId }])) := by
  constructor
  · intro db analysis computer maxA today now1 now2 hu hecho
    unfold Population.populate_advisories_ws2
    simp only [noPopFaults_featureLookup, noPopFaults_plan,
      Bool.false_eq_true, if_false]
    by_cases hE : Population._is_feature_enabled db.featureState = true
    case neg =>
      rw [Bool.not_eq_true] at hE
      simp only [hE, Bool.not_false, eq_self_iff_true, if_true]
      refine ⟨by trivial, by trivial, ?_, ⟨[], by simp, List.Pairwise.nil⟩⟩
      intro req hreq hk e he
      simp only [List.mem_singleton] at he
      subst he
      rintro ⟨hname, -, -⟩
      exact absurd hname (by decide)
    case pos =>
      simp only [hE, Bool.not_true, Bool.false_eq_true, if_false]
      by_cases hR : Population._is_rollout_eligible analysis.resumeId
          ((db.featureState.bind fun fs => fs.rolloutPercent).getD 0) = true
      case neg =>
        rw [Bool.not_eq_true] at hR
        simp only [hE, hR, Bool.not_true, Bool.not_false, Bool.false_eq_true,
          eq_self_iff_true, if_true, if_false]
        refine ⟨by trivial, by trivial, ?_, ⟨[], by simp, List.Pairwise.nil⟩⟩
        intro req hreq hk e he
        simp only [List.mem_singleton] at he
        subst he
        rintro ⟨hname, -, -⟩
        exact absurd hname (by decide)
      case pos =>
        simp only [hR, Bool.not_true, Bool.false_eq_true, if_false]
        cases hplan : computer.plan analysis with
        | nil =>
            simp only [hE, hR, Bool.not_true, Bool.false_eq_true, if_false,
              List.isEmpty_nil, eq_self_iff_true, if_true]
            refine ⟨by trivial, by trivial, ?_, ⟨[], by simp,
              List.Pairwise.nil⟩⟩
            intro req hreq
            exact absurd hreq (List.not_mem_nil req)
        | cons p ps =>
            simp only [hE, hR, Bool.not_true, Bool.false_eq_true, if_false,
              List.isEmpty_cons]
            obtain ⟨hu1, ⟨tl1, hc1⟩, hf1, hex1, hset1,
              ⟨added, hadd, hpadd, hinadd, houtadd⟩⟩ :=
              popLoop_establishes analysis computer maxA today now1 db hecho
                (p :: ps) 0 db hu
            rw [hf1]
            simp only [hE, hR, Bool.not_true, Bool.false_eq_true, if_false]
            obtain ⟨hsig2, hcache2, hev2⟩ :=
              popLoop_noop analysis computer maxA today now2
                (Population.popLoop noPopFaults analysis computer maxA today
                  now1 db 0 db (p :: ps)).1 (p :: ps) 0
                (Population.popLoop noPopFaults analysis computer maxA today
                  now1 db 0 db (p :: ps)).1 hu1 hset1
            refine ⟨hsig2, hcache2, ?_, ⟨added, hadd, hpadd⟩⟩
            intro req hreq hkey e he
            rintro ⟨hname, hst, hmv⟩
            obtain ⟨req', hreq', hst', hmv', hnk⟩ := hev2 e he hname
            rw [hst] at hst'
            rw [hmv] at hmv'
            have h1 : req'.signalType = req.signalType :=
              (Option.some.inj hst').symm
            have h2 : req'.modelVersion = req.modelVersion :=
              (Option.some.inj hmv').symm
            rw [h1, h2] at hnk
            rw [hkey] at hnk
            exact Bool.noConfusion hnk
  · intro db analysis res k ilf snapshot now hfresh
    constructor
    · intro hk
      unfold cacheHasKey at hk
      constructor
      · rw [persist_signals_eq, if_pos hk,
          filter_fresh_append db analysis res now hfresh]
      · rw [persist_cache_eq, if_pos hk]
    · intro hk
      unfold cacheHasKey at hk
      have hk' : ¬((db.cache.any fun r => decide (r.cacheKey = k)) = true) := by
        rw [hk]
        exact Bool.false_ne_true
      constructor
      · rw [persist_signals_eq, if_neg hk']
      · rw [persist_cache_eq, if_neg hk']
/-- Witness for C2: a second populate run on the concrete scenario store
adds no signals, and persist on an unclaimed key adds exactly the one
signal. -/
theorem populate_idempotent_race_safe_witness :
    BudgetUnique c6Store ∧
    ComputerEchoes c6Analysis c6Computer ∧
    (Population.populate_advisories_ws2 noPopFaults
      (Population.populate_advisories_ws2 noPopFaults c6Store c6Analysis
        c6Computer 1 0 0).1 c6Analysis c6Computer 1 0 1).1.signals =
      (Population.populate_advisories_ws2 noPopFaults c6Store c6Analysis
        c6Computer 1 0 0).1.signals ∧
    SignalIdsFresh c6Store ∧
    cacheHasKey c6Store "k" = false ∧
    (Population._persist_signal c6Store c6Analysis exRes "k" false false
      c6Store 0).1.signals =
      c6Store.signals ++ [newSignal c6Store c6Analysis exRes 0] := by
  have hu : BudgetUnique c6Store := List.Pairwise.nil
  have hech : ComputerEchoes c6Analysis c6Computer := by
    intro req res h
    cases h
    exact ⟨rfl, rfl⟩
  have hf : SignalIdsFresh c6Store := fun s hs => absurd hs (List.not_mem_nil s)
  have hk : cacheHasKey c6Store "k" = false := rfl
  exact ⟨hu, hech,
    (populate_idempotent_race_safe.1 c6Store c6Analysis c6Computer 1 0 0 1
      hu hech).1, hf, hk,
    ((populate_idempotent_race_safe.2 c6Store c6Analysis exRes "k" false
      c6Store 0 hf).2 hk).1⟩

end AppTrack
